import Mathlib

/-! LMP91000 analog front-end driver: shallow embedding and verification

The driver (`lmp91000.c`, `lmp91000.h`) is a sequence of calls into the STM32
HAL.  The HAL itself is not part of the repository, so it is a parameter of
the embedding: a record `HAL σ` of functions on an arbitrary environment
state `σ`.  Every HAL call is appended to a trace carried by the `World`, so
that the transactions a driver function issues can be read back.

Machine integers are `Nat`; the conversions to `uint8_t` / `uint16_t` that
the C code performs are explicit `% 256` / `% 65536`.  Pointers are `Option`
values (`none` is `NULL`).
-/

namespace LMP91000

/-! ## Types of `lmp91000.h` and of the HAL interface -/

/-- Return code of the HAL bus functions (`HAL_StatusTypeDef`). -/
inductive HAL_StatusTypeDef where
  | HAL_OK
  | HAL_ERROR
  | HAL_BUSY
  | HAL_TIMEOUT
  deriving DecidableEq, Repr

/-- Error codes of the driver (`LMP91000_Status_t`). -/
inductive LMP91000_Status_t where
  | LMP91000_OK
  | LMP91000_ERROR
  | LMP91000_ERROR_I2C
  | LMP91000_ERROR_NOT_READY
  deriving DecidableEq, Repr

/-- Level written to a pin (`GPIO_PinState`). -/
inductive GPIO_PinState where
  | GPIO_PIN_RESET
  | GPIO_PIN_SET
  deriving DecidableEq, Repr

/-- Pin mode; the driver only uses `GPIO_MODE_OUTPUT_PP`. -/
inductive GPIO_Mode where
  | GPIO_MODE_OUTPUT_PP
  deriving DecidableEq, Repr

/-- Pull configuration; the driver only uses `GPIO_NOPULL`. -/
inductive GPIO_Pull where
  | GPIO_NOPULL
  deriving DecidableEq, Repr

/-- Pin speed; the driver only uses `GPIO_SPEED_FREQ_LOW`. -/
inductive GPIO_Speed where
  | GPIO_SPEED_FREQ_LOW
  deriving DecidableEq, Repr

/-- The fields of `GPIO_InitTypeDef` the driver sets. -/
structure GPIO_InitTypeDef where
  Pin : Nat
  Mode : GPIO_Mode
  Pull : GPIO_Pull
  Speed : GPIO_Speed
  deriving DecidableEq, Repr

/-- Handle structure (`LMP91000_Handle_t`): two pointers and the pin mask. -/
structure LMP91000_Handle_t where
  hi2c : Option Nat
  menb_port : Option Nat
  menb_pin : Nat
  deriving DecidableEq, Repr

/-- One call into the HAL, with its arguments and, for bus calls, its outcome. -/
inductive Event where
  | gpio_init (port : Option Nat) (cfg : GPIO_InitTypeDef)
  | gpio_write (port : Option Nat) (pin : Nat) (state : GPIO_PinState)
  | delay (ms : Nat)
  | transmit (hi2c : Option Nat) (devAddr : Nat) (data : List Nat) (timeout : Nat)
      (st : HAL_StatusTypeDef)
  | receive (hi2c : Option Nat) (devAddr : Nat) (size : Nat) (timeout : Nat)
      (st : HAL_StatusTypeDef) (stored : Option Nat)
  deriving DecidableEq, Repr

/-- The HAL the driver calls into, over an environment state `σ`.  A receive
reports its outcome and the byte it stored in the caller's one-byte buffer,
`none` when it stored nothing (whatever the outcome). -/
structure HAL (σ : Type) where
  gpio_init : σ → Option Nat → GPIO_InitTypeDef → σ
  gpio_write : σ → Option Nat → Nat → GPIO_PinState → σ
  delay : σ → Nat → σ
  transmit : σ → Option Nat → Nat → List Nat → Nat → HAL_StatusTypeDef × σ
  receive : σ → Option Nat → Nat → Nat → Nat → (HAL_StatusTypeDef × Option Nat) × σ

/-- Environment state together with the trace of HAL calls made so far. -/
structure World (σ : Type) where
  dev : σ
  trace : List Event

/-! ## Constants -/

/-- Bus address of the chip in transmit form, `#define LMP91000_I2C_ADDR (0x48 << 1)`. -/
def LMP91000_I2C_ADDR : Nat := 0x48 <<< 1

/-- Timeout given to every bus call, `#define LMP91000_I2C_TIMEOUT 1000`. -/
def LMP91000_I2C_TIMEOUT : Nat := 1000

def LMP91000_REG_STATUS : Nat := 0x00
def LMP91000_REG_LOCK : Nat := 0x01
def LMP91000_REG_TIACN : Nat := 0x10
def LMP91000_REG_REFCN : Nat := 0x11
def LMP91000_REG_MODECN : Nat := 0x12

/-! ## HAL calls, logged -/

section Driver

variable {σ : Type}

def HAL_GPIO_Init (hal : HAL σ) (port : Option Nat) (cfg : GPIO_InitTypeDef)
    (w : World σ) : World σ :=
  { dev := hal.gpio_init w.dev port cfg
    trace := w.trace ++ [Event.gpio_init port cfg] }

def HAL_GPIO_WritePin (hal : HAL σ) (port : Option Nat) (pin : Nat)
    (state : GPIO_PinState) (w : World σ) : World σ :=
  { dev := hal.gpio_write w.dev port pin state
    trace := w.trace ++ [Event.gpio_write port pin state] }

def HAL_Delay (hal : HAL σ) (ms : Nat) (w : World σ) : World σ :=
  { dev := hal.delay w.dev ms
    trace := w.trace ++ [Event.delay ms] }

def HAL_I2C_Master_Transmit (hal : HAL σ) (hi2c : Option Nat) (devAddr : Nat)
    (data : List Nat) (timeout : Nat) (w : World σ) : HAL_StatusTypeDef × World σ :=
  let r := hal.transmit w.dev hi2c devAddr data timeout
  (r.1, { dev := r.2
          trace := w.trace ++ [Event.transmit hi2c devAddr data timeout r.1] })

def HAL_I2C_Master_Receive (hal : HAL σ) (hi2c : Option Nat) (devAddr : Nat)
    (size : Nat) (timeout : Nat) (w : World σ) :
    (HAL_StatusTypeDef × Option Nat) × World σ :=
  let r := hal.receive w.dev hi2c devAddr size timeout
  (r.1, { dev := r.2
          trace := w.trace ++ [Event.receive hi2c devAddr size timeout r.1.1 r.1.2] })

/-- Content of a `uint8_t` cell that held `d` after a one-byte receive into
it: the byte the HAL stored, or `d` when it stored nothing. -/
def bufferAfter (stored : Option Nat) (d : Nat) : Nat :=
  match stored with
  | some b => b % 256
  | none => d

/-! ## The driver functions of `lmp91000.c` -/

open HAL_StatusTypeDef LMP91000_Status_t GPIO_PinState

/-- Embedding of `LMP91000_ReadRegister`.  `data` is the output pointer: `none` is `NULL`,
`some d` a cell holding `d`; the cell after the call is returned with the
status.  The cell is handed to `HAL_I2C_Master_Receive` as the buffer, so
after the receive it holds what the HAL stored there, whether or not the
receive then reported `HAL_OK`. -/
def LMP91000_ReadRegister (hal : HAL σ) (hlmp : Option LMP91000_Handle_t) (reg : Nat)
    (data : Option Nat) (w : World σ) : (LMP91000_Status_t × Option Nat) × World σ :=
  match hlmp, data with
  | some h, some d =>
    let t := HAL_I2C_Master_Transmit hal h.hi2c LMP91000_I2C_ADDR [reg % 256]
      LMP91000_I2C_TIMEOUT w
    if t.1 ≠ HAL_OK then ((LMP91000_ERROR_I2C, some d), t.2)
    else
      let r := HAL_I2C_Master_Receive hal h.hi2c LMP91000_I2C_ADDR 1
        LMP91000_I2C_TIMEOUT t.2
      if r.1.1 ≠ HAL_OK then ((LMP91000_ERROR_I2C, some (bufferAfter r.1.2 d)), r.2)
      else ((LMP91000_OK, some (bufferAfter r.1.2 d)), r.2)
  | _, _ => ((LMP91000_ERROR, data), w)

/-- Embedding of `LMP91000_WriteRegister`: one transmit of the buffer `{reg, data}`. -/
def LMP91000_WriteRegister (hal : HAL σ) (hlmp : Option LMP91000_Handle_t) (reg : Nat)
    (data : Nat) (w : World σ) : LMP91000_Status_t × World σ :=
  match hlmp with
  | none => (LMP91000_ERROR, w)
  | some h =>
    let t := HAL_I2C_Master_Transmit hal h.hi2c LMP91000_I2C_ADDR [reg % 256, data % 256]
      LMP91000_I2C_TIMEOUT w
    if t.1 ≠ HAL_OK then (LMP91000_ERROR_I2C, t.2)
    else (LMP91000_OK, t.2)

/-- Embedding of `LMP91000_Init`.  Returns the status and the handle cell after the call.
The local `status` is uninitialised in C; it is only read after a successful
`LMP91000_ReadRegister`, so its initial content (here 0) is never observed. -/
def LMP91000_Init (hal : HAL σ) (hlmp : Option LMP91000_Handle_t) (hi2c : Option Nat)
    (menb_port : Option Nat) (menb_pin : Nat) (w : World σ) :
    (LMP91000_Status_t × Option LMP91000_Handle_t) × World σ :=
  match hlmp, hi2c with
  | some _, some i =>
    let h : LMP91000_Handle_t :=
      { hi2c := some i, menb_port := menb_port, menb_pin := menb_pin % 65536 }
    let w1 := HAL_GPIO_Init hal menb_port
      { Pin := menb_pin % 65536, Mode := GPIO_Mode.GPIO_MODE_OUTPUT_PP,
        Pull := GPIO_Pull.GPIO_NOPULL, Speed := GPIO_Speed.GPIO_SPEED_FREQ_LOW } w
    let w2 := HAL_GPIO_WritePin hal menb_port (menb_pin % 65536) GPIO_PIN_SET w1
    let w3 := HAL_Delay hal 10 w2
    let w4 := HAL_GPIO_WritePin hal menb_port (menb_pin % 65536) GPIO_PIN_RESET w3
    let w5 := HAL_Delay hal 10 w4
    let r := LMP91000_ReadRegister hal (some h) LMP91000_REG_STATUS (some 0) w5
    if r.1.1 ≠ LMP91000_OK then ((LMP91000_ERROR_I2C, some h), r.2)
    else
      let status := r.1.2.getD 0
      ((if status &&& 0x01 ≠ 0 then LMP91000_OK else LMP91000_ERROR_NOT_READY, some h), r.2)
  | _, _ => ((LMP91000_ERROR, hlmp), w)

/-- Embedding of `LMP91000_Enable` (MENB low, then a 1 ms delay). -/
def LMP91000_Enable (hal : HAL σ) (hlmp : Option LMP91000_Handle_t) (w : World σ) :
    LMP91000_Status_t × World σ :=
  match hlmp with
  | none => (LMP91000_ERROR, w)
  | some h =>
    let w1 := HAL_GPIO_WritePin hal h.menb_port h.menb_pin GPIO_PIN_RESET w
    (LMP91000_OK, HAL_Delay hal 1 w1)

/-- Embedding of `LMP91000_Disable` (MENB high). -/
def LMP91000_Disable (hal : HAL σ) (hlmp : Option LMP91000_Handle_t) (w : World σ) :
    LMP91000_Status_t × World σ :=
  match hlmp with
  | none => (LMP91000_ERROR, w)
  | some h => (LMP91000_OK, HAL_GPIO_WritePin hal h.menb_port h.menb_pin GPIO_PIN_SET w)

/-- Embedding of `LMP91000_SetTIA`.  `gain` and `rload` are enum arguments; the assignment
to the `uint8_t tiacn` keeps the low eight bits. -/
def LMP91000_SetTIA (hal : HAL σ) (hlmp : Option LMP91000_Handle_t) (gain rload : Nat)
    (w : World σ) : LMP91000_Status_t × World σ :=
  match hlmp with
  | none => (LMP91000_ERROR, w)
  | some h =>
    let u := LMP91000_WriteRegister hal (some h) LMP91000_REG_LOCK 0x00 w
    if u.1 ≠ LMP91000_OK then (LMP91000_ERROR_I2C, u.2)
    else
      let tiacn := ((gain <<< 2) ||| rload) % 256
      let c := LMP91000_WriteRegister hal (some h) LMP91000_REG_TIACN tiacn u.2
      if c.1 ≠ LMP91000_OK then (LMP91000_ERROR_I2C, c.2)
      else
        let l := LMP91000_WriteRegister hal (some h) LMP91000_REG_LOCK 0x01 c.2
        if l.1 ≠ LMP91000_OK then (LMP91000_ERROR_I2C, l.2)
        else (LMP91000_OK, l.2)

/-- Embedding of `LMP91000_SetReference`.  The local `refcn` is uninitialised in C and only
read after a successful `LMP91000_ReadRegister`. -/
def LMP91000_SetReference (hal : HAL σ) (hlmp : Option LMP91000_Handle_t)
    (ref_source int_zero : Nat) (w : World σ) : LMP91000_Status_t × World σ :=
  match hlmp with
  | none => (LMP91000_ERROR, w)
  | some h =>
    let u := LMP91000_WriteRegister hal (some h) LMP91000_REG_LOCK 0x00 w
    if u.1 ≠ LMP91000_OK then (LMP91000_ERROR_I2C, u.2)
    else
      let r := LMP91000_ReadRegister hal (some h) LMP91000_REG_REFCN (some 0) u.2
      if r.1.1 ≠ LMP91000_OK then (LMP91000_ERROR_I2C, r.2)
      else
        let refcn := r.1.2.getD 0
        let refcn := ((refcn &&& 0x1F) ||| (ref_source <<< 7) ||| (int_zero <<< 5)) % 256
        let c := LMP91000_WriteRegister hal (some h) LMP91000_REG_REFCN refcn r.2
        if c.1 ≠ LMP91000_OK then (LMP91000_ERROR_I2C, c.2)
        else
          let l := LMP91000_WriteRegister hal (some h) LMP91000_REG_LOCK 0x01 c.2
          if l.1 ≠ LMP91000_OK then (LMP91000_ERROR_I2C, l.2)
          else (LMP91000_OK, l.2)

/-- Embedding of `LMP91000_SetBias`; `refcn` as in `LMP91000_SetReference`. -/
def LMP91000_SetBias (hal : HAL σ) (hlmp : Option LMP91000_Handle_t)
    (sign level : Nat) (w : World σ) : LMP91000_Status_t × World σ :=
  match hlmp with
  | none => (LMP91000_ERROR, w)
  | some h =>
    let u := LMP91000_WriteRegister hal (some h) LMP91000_REG_LOCK 0x00 w
    if u.1 ≠ LMP91000_OK then (LMP91000_ERROR_I2C, u.2)
    else
      let r := LMP91000_ReadRegister hal (some h) LMP91000_REG_REFCN (some 0) u.2
      if r.1.1 ≠ LMP91000_OK then (LMP91000_ERROR_I2C, r.2)
      else
        let refcn := r.1.2.getD 0
        let refcn := ((refcn &&& 0xE0) ||| (sign <<< 4) ||| level) % 256
        let c := LMP91000_WriteRegister hal (some h) LMP91000_REG_REFCN refcn r.2
        if c.1 ≠ LMP91000_OK then (LMP91000_ERROR_I2C, c.2)
        else
          let l := LMP91000_WriteRegister hal (some h) LMP91000_REG_LOCK 0x01 c.2
          if l.1 ≠ LMP91000_OK then (LMP91000_ERROR_I2C, l.2)
          else (LMP91000_OK, l.2)

/-- Embedding of `LMP91000_SetMode`: `uint8_t modecn = mode`, then one register write whose
status is returned unchanged. -/
def LMP91000_SetMode (hal : HAL σ) (hlmp : Option LMP91000_Handle_t) (mode : Nat)
    (w : World σ) : LMP91000_Status_t × World σ :=
  match hlmp with
  | none => (LMP91000_ERROR, w)
  | some h =>
    let modecn := mode % 256
    LMP91000_WriteRegister hal (some h) LMP91000_REG_MODECN modecn w

/-- Common shape of `LMP91000_SetReference` and `LMP91000_SetBias`, which differ
only in how the byte read from REFCN is merged: unlock, read REFCN, write
`merge` of the byte read, lock, returning at the first step that fails.  Used
to reason about both at once; each is shown equal to an instance of it. -/
def lockedReadModifyWrite (hal : HAL σ) (h : LMP91000_Handle_t) (merge : Nat → Nat)
    (w : World σ) : LMP91000_Status_t × World σ :=
  let u := LMP91000_WriteRegister hal (some h) LMP91000_REG_LOCK 0x00 w
  if u.1 ≠ LMP91000_OK then (LMP91000_ERROR_I2C, u.2)
  else
    let r := LMP91000_ReadRegister hal (some h) LMP91000_REG_REFCN (some 0) u.2
    if r.1.1 ≠ LMP91000_OK then (LMP91000_ERROR_I2C, r.2)
    else
      let c := LMP91000_WriteRegister hal (some h) LMP91000_REG_REFCN (merge (r.1.2.getD 0)) r.2
      if c.1 ≠ LMP91000_OK then (LMP91000_ERROR_I2C, c.2)
      else
        let l := LMP91000_WriteRegister hal (some h) LMP91000_REG_LOCK 0x01 c.2
        if l.1 ≠ LMP91000_OK then (LMP91000_ERROR_I2C, l.2)
        else (LMP91000_OK, l.2)

end Driver

/-! ## Three concrete environments

`scriptedHAL` plays back a prepared list of bus outcomes, one per transaction,
and times out when the list is used up.  `regFileHAL` is a simulated register
file answering at the chip address.  `idealHAL R` never fails and delivers
`R` on every receive. -/

open HAL_StatusTypeDef LMP91000_Status_t GPIO_PinState

/-- Bus whose outcomes are listed in advance: each transmit or receive takes
the next entry (status, byte stored by a receive); pins and delays do not
affect it. -/
def scriptedHAL : HAL (List (HAL_StatusTypeDef × Option Nat)) where
  gpio_init s _ _ := s
  gpio_write s _ _ _ := s
  delay s _ := s
  transmit s _ _ _ _ :=
    match s with
    | [] => (HAL_TIMEOUT, [])
    | r :: rest => (r.1, rest)
  receive s _ _ _ _ :=
    match s with
    | [] => ((HAL_TIMEOUT, none), [])
    | r :: rest => (r, rest)

/-- Simulated register file: the stored bytes and the selected address. -/
structure RegFile where
  regs : Nat → Nat
  sel : Nat

/-- Store `v` at `addr`, leaving the other registers as they are. -/
def RegFile.store (f : RegFile) (addr v : Nat) : RegFile :=
  { f with regs := fun a => if a = addr then v else f.regs a }

/-- Simulated register file behind the bus, answering at the chip address
0x90: a transmit of `[addr, v]` stores `v` at `addr`, a transmit of `[addr]`
selects `addr`, a receive returns the byte stored at the selected address.
Any other transaction is refused. -/
def regFileHAL : HAL RegFile where
  gpio_init f _ _ := f
  gpio_write f _ _ _ := f
  delay f _ := f
  transmit f _ devAddr data _ :=
    if devAddr = 0x90 then
      match data with
      | [addr] => (HAL_OK, { f with sel := addr })
      | [addr, v] => (HAL_OK, f.store addr v)
      | _ => (HAL_ERROR, f)
    else (HAL_ERROR, f)
  receive f _ devAddr size _ :=
    if devAddr = 0x90 ∧ size = 1 then ((HAL_OK, some (f.regs f.sel)), f)
    else ((HAL_ERROR, none), f)

/-- Bus on which every transaction succeeds and every receive delivers the
byte `R`. -/
def idealHAL (R : Nat) : HAL Unit where
  gpio_init s _ _ := s
  gpio_write s _ _ _ := s
  delay s _ := s
  transmit s _ _ _ _ := (HAL_OK, s)
  receive s _ _ _ _ := ((HAL_OK, some R), s)

/-! ## Predicates on traces -/

/-- A bus transaction that the transport reported as failed. -/
def Event.failed : Event → Bool
  | Event.transmit _ _ _ _ st => decide (st ≠ HAL_OK)
  | Event.receive _ _ _ _ st _ => decide (st ≠ HAL_OK)
  | _ => false

/-- A bus transaction (transmit or receive), as opposed to a pin write or a
delay. -/
def Event.isBus : Event → Bool
  | Event.transmit _ _ _ _ _ => true
  | Event.receive _ _ _ _ _ _ => true
  | _ => false

/-- Outcome the transport reported for a bus transaction. -/
def Event.status : Event → Option HAL_StatusTypeDef
  | Event.transmit _ _ _ _ st => some st
  | Event.receive _ _ _ _ st _ => some st
  | _ => none

/-- A register write (two-byte transmit to the chip) to register `reg`. -/
def Event.isWriteTo (reg : Nat) : Event → Bool
  | Event.transmit _ devAddr [r, _] _ _ => decide (devAddr = 0x90 ∧ r = reg)
  | _ => false

/-- The register write `[reg, v]` to the chip. -/
def Event.isWrite (reg v : Nat) : Event → Bool
  | Event.transmit _ devAddr [r, x] _ _ => decide (devAddr = 0x90 ∧ r = reg ∧ x = v)
  | _ => false

/-- A write to one of the two lock-gated registers, TIACN or REFCN. -/
def Event.isProtectedWrite (e : Event) : Bool :=
  e.isWriteTo LMP91000_REG_TIACN || e.isWriteTo LMP91000_REG_REFCN

/-- One of the two transactions of a read-back of register `reg`: the
one-byte transmit `[reg]` selecting the address, or the one-byte receive. -/
def Event.isReadStep (reg : Nat) : Event → Bool
  | Event.transmit _ devAddr [r] _ _ => decide (devAddr = 0x90 ∧ r = reg)
  | Event.receive _ devAddr size _ _ _ => decide (devAddr = 0x90 ∧ size = 1)
  | _ => false

/-- A call that started in `w`, returned `r` and ended in `w2` stopped at the
first failed transaction: whatever failed is the last entry of what the call
appended to the trace, and the call returned `LMP91000_ERROR_I2C`. -/
def StopsAtFailure {σ : Type} (w : World σ) (r : LMP91000_Status_t) (w2 : World σ) : Prop :=
  ∀ pre e post, w2.trace = w.trace ++ (pre ++ e :: post) → e.failed = true →
    post = [] ∧ r = LMP91000_ERROR_I2C

/-- The call `run`, started on the scripted bus whose first `oks.length`
transactions are the entries of `oks` and whose next transaction reports
`st`, aborts there: it returns `LMP91000_ERROR_I2C`, it has consumed the
script up to and including the failing entry and nothing of `rest`, and what
it appended to the trace is `oks.length` bus transactions, none failed,
followed by one last transaction with outcome `st`. -/
def AbortsAtFailure
    (run : World (List (HAL_StatusTypeDef × Option Nat)) →
      LMP91000_Status_t × World (List (HAL_StatusTypeDef × Option Nat)))
    (oks : List (HAL_StatusTypeDef × Option Nat)) (st : HAL_StatusTypeDef)
    (b : Option Nat) (rest : List (HAL_StatusTypeDef × Option Nat)) : Prop :=
  ∀ tr : List Event,
    (run ⟨oks ++ (st, b) :: rest, tr⟩).1 = LMP91000_ERROR_I2C ∧
    (run ⟨oks ++ (st, b) :: rest, tr⟩).2.dev = rest ∧
    ∃ l, (run ⟨oks ++ (st, b) :: rest, tr⟩).2.trace = tr ++ l ∧
      (l.dropLast.filter Event.isBus).length = oks.length ∧
      (∀ x ∈ l.dropLast, x.failed = false) ∧
      l.getLast?.bind Event.status = some st

/-- Lock bracket read strictly: in the list `l` of issued transactions every
write to TIACN or REFCN has the unlock write `[0x01, 0x00]` as the entry
immediately before it and the lock write `[0x01, 0x01]` immediately after. -/
def ImmediatelyBracketed (l : List Event) : Prop :=
  ∀ pre e post, l = pre ++ e :: post → e.isProtectedWrite = true →
    (∃ p u, pre = p ++ [u] ∧ u.isWrite LMP91000_REG_LOCK 0x00 = true) ∧
    (∃ k q, post = k :: q ∧ k.isWrite LMP91000_REG_LOCK 0x01 = true)

/-- Lock bracket allowing the read-back: every write to TIACN or REFCN has the
unlock write before it, separated from it only by transactions of a REFCN
read-back, and the lock write immediately after it. -/
def Bracketed (l : List Event) : Prop :=
  ∀ pre e post, l = pre ++ e :: post → e.isProtectedWrite = true →
    (∃ p u mid, pre = p ++ u :: mid ∧ u.isWrite LMP91000_REG_LOCK 0x00 = true ∧
      ∀ m ∈ mid, m.isReadStep LMP91000_REG_REFCN = true) ∧
    (∃ k q, post = k :: q ∧ k.isWrite LMP91000_REG_LOCK 0x01 = true)

/-! ## Basic facts about the two register primitives -/

section Lemmas

variable {σ : Type}

theorem i2c_addr_eq : LMP91000_I2C_ADDR = 0x90 := by decide

theorem writeRegister_status (hal : HAL σ) (h : LMP91000_Handle_t) (reg data : Nat)
    (w : World σ) :
    (LMP91000_WriteRegister hal (some h) reg data w).1 =
      if (hal.transmit w.dev h.hi2c 0x90 [reg % 256, data % 256] 1000).1 = HAL_OK
      then LMP91000_OK else LMP91000_ERROR_I2C := by
  simp only [LMP91000_WriteRegister, HAL_I2C_Master_Transmit, i2c_addr_eq,
    LMP91000_I2C_TIMEOUT]
  split_ifs <;> simp_all

theorem writeRegister_trace (hal : HAL σ) (h : LMP91000_Handle_t) (reg data : Nat)
    (w : World σ) :
    (LMP91000_WriteRegister hal (some h) reg data w).2.trace =
      w.trace ++ [Event.transmit h.hi2c 0x90 [reg % 256, data % 256] 1000
        (hal.transmit w.dev h.hi2c 0x90 [reg % 256, data % 256] 1000).1] := by
  simp only [LMP91000_WriteRegister, HAL_I2C_Master_Transmit, i2c_addr_eq,
    LMP91000_I2C_TIMEOUT]
  split_ifs <;> rfl

theorem tiacn_byte (gain rload : Nat) (hg : gain ≤ 7) (hl : rload ≤ 3) :
    ((gain <<< 2) ||| rload) % 256 = (gain <<< 2) ||| rload := by
  interval_cases gain <;> interval_cases rload <;> rfl

theorem readRegister_ok (hal : HAL σ) (h : LMP91000_Handle_t) (reg d R : Nat)
    (w : World σ) (hok : ∀ s i a d t, (hal.transmit s i a d t).1 = HAL_OK)
    (hrx : ∀ s i a n t, (hal.receive s i a n t).1 = (HAL_OK, some R)) :
    (LMP91000_ReadRegister hal (some h) reg (some d) w).1 = (LMP91000_OK, some (R % 256)) ∧
    (LMP91000_ReadRegister hal (some h) reg (some d) w).2.trace = w.trace ++
      [Event.transmit h.hi2c 0x90 [reg % 256] 1000 HAL_OK,
       Event.receive h.hi2c 0x90 1 1000 HAL_OK (some R)] := by
  simp [LMP91000_ReadRegister, HAL_I2C_Master_Transmit, HAL_I2C_Master_Receive,
    i2c_addr_eq, LMP91000_I2C_TIMEOUT, hok, hrx, bufferAfter]

set_option maxRecDepth 1000000 in
theorem refcn_ref_bits : ∀ R < 256, ∀ s < 2, ∀ z < 4,
    ((R &&& 0x1F) ||| (s <<< 7) ||| (z <<< 5)) % 256 =
        (R &&& 0x1F) ||| (s <<< 7) ||| (z <<< 5) ∧
    ((R &&& 0x1F) ||| (s <<< 7) ||| (z <<< 5)) &&& 0x1F = R &&& 0x1F ∧
    ((R &&& 0x1F) ||| (s <<< 7) ||| (z <<< 5)) &&& 0xE0 = (s <<< 7) ||| (z <<< 5) := by
  decide

set_option maxRecDepth 1000000 in
theorem refcn_bias_bits : ∀ R < 256, ∀ s < 2, ∀ l < 14,
    ((R &&& 0xE0) ||| (s <<< 4) ||| l) % 256 = (R &&& 0xE0) ||| (s <<< 4) ||| l ∧
    ((R &&& 0xE0) ||| (s <<< 4) ||| l) &&& 0xE0 = R &&& 0xE0 ∧
    ((R &&& 0xE0) ||| (s <<< 4) ||| l) &&& 0x1F = (s <<< 4) ||| l := by
  decide

/-- Shape that gives `StopsAtFailure`: the call appended `l`, nothing but the
last entry of `l` failed, and a failure in `l` means `LMP91000_ERROR_I2C`. -/
theorem stopsAtFailure_of_shape {w w2 : World σ} {r : LMP91000_Status_t} (l : List Event)
    (htr : w2.trace = w.trace ++ l)
    (hpre : ∀ e ∈ l.dropLast, e.failed = false)
    (hres : (∃ e ∈ l, e.failed = true) → r = LMP91000_ERROR_I2C) :
    StopsAtFailure w r w2 := by
  intro pre e post heq hf
  rw [htr] at heq
  have hl : l = pre ++ e :: post := List.append_cancel_left heq
  subst hl
  refine ⟨?_, hres ⟨e, by simp, hf⟩⟩
  cases post with
  | nil => rfl
  | cons p ps =>
    have hmem : e ∈ (pre ++ e :: p :: ps).dropLast := by
      rw [List.dropLast_append_cons]
      simp [List.dropLast]
    have := hpre e hmem
    rw [hf] at this
    exact absurd this (by decide)

theorem writeRegister_stops (hal : HAL σ) (h : LMP91000_Handle_t) (reg data : Nat)
    (w : World σ) :
    StopsAtFailure w (LMP91000_WriteRegister hal (some h) reg data w).1
      (LMP91000_WriteRegister hal (some h) reg data w).2 := by
  simp only [LMP91000_WriteRegister, HAL_I2C_Master_Transmit]
  split_ifs <;>
    (simp only [List.append_assoc, List.cons_append, List.nil_append]
     refine stopsAtFailure_of_shape _ rfl ?_ ?_ <;> simp_all [Event.failed])

theorem readRegister_stops (hal : HAL σ) (h : LMP91000_Handle_t) (reg d : Nat)
    (w : World σ) :
    StopsAtFailure w (LMP91000_ReadRegister hal (some h) reg (some d) w).1.1
      (LMP91000_ReadRegister hal (some h) reg (some d) w).2 := by
  simp only [LMP91000_ReadRegister, HAL_I2C_Master_Transmit, HAL_I2C_Master_Receive]
  split_ifs <;>
    (simp only [List.append_assoc, List.cons_append, List.nil_append]
     refine stopsAtFailure_of_shape _ rfl ?_ ?_ <;> simp_all [Event.failed])

theorem init_stops (hal : HAL σ) (hp : LMP91000_Handle_t) (i : Nat)
    (menb_port : Option Nat) (menb_pin : Nat) (w : World σ) :
    StopsAtFailure w (LMP91000_Init hal (some hp) (some i) menb_port menb_pin w).1.1
      (LMP91000_Init hal (some hp) (some i) menb_port menb_pin w).2 := by
  simp only [LMP91000_Init, LMP91000_ReadRegister, HAL_I2C_Master_Transmit,
    HAL_I2C_Master_Receive, HAL_GPIO_Init, HAL_GPIO_WritePin, HAL_Delay]
  split_ifs <;>
    (simp only [List.append_assoc, List.cons_append, List.nil_append]
     refine stopsAtFailure_of_shape _ rfl ?_ ?_ <;> simp_all [Event.failed])

/-- Every call of `LMP91000_WriteRegister` with a handle is one logged transmit
whose status decides the result. -/
theorem writeRegister_cases (hal : HAL σ) (h : LMP91000_Handle_t) (reg data : Nat)
    (w : World σ) :
    ∃ st dev2, LMP91000_WriteRegister hal (some h) reg data w =
      (if st = HAL_OK then LMP91000_OK else LMP91000_ERROR_I2C,
       { dev := dev2
         trace := w.trace ++ [Event.transmit h.hi2c 0x90 [reg % 256, data % 256] 1000 st] }) := by
  refine ⟨(hal.transmit w.dev h.hi2c 0x90 [reg % 256, data % 256] 1000).1,
    (hal.transmit w.dev h.hi2c 0x90 [reg % 256, data % 256] 1000).2, ?_⟩
  simp only [LMP91000_WriteRegister, HAL_I2C_Master_Transmit, i2c_addr_eq,
    LMP91000_I2C_TIMEOUT]
  split_ifs <;> simp_all

/-- Every call of `LMP91000_ReadRegister` with a handle and an output cell
ends in one of three ways: the address transmit failed, the receive failed,
or both succeeded and the cell holds the delivered byte. -/
theorem readRegister_cases (hal : HAL σ) (h : LMP91000_Handle_t) (reg d : Nat)
    (w : World σ) :
    (∃ st dev2, st ≠ HAL_OK ∧ LMP91000_ReadRegister hal (some h) reg (some d) w =
      ((LMP91000_ERROR_I2C, some d),
       { dev := dev2
         trace := w.trace ++ [Event.transmit h.hi2c 0x90 [reg % 256] 1000 st] })) ∨
    (∃ st b dev2, st ≠ HAL_OK ∧ LMP91000_ReadRegister hal (some h) reg (some d) w =
      ((LMP91000_ERROR_I2C, some (bufferAfter b d)),
       { dev := dev2
         trace := w.trace ++ [Event.transmit h.hi2c 0x90 [reg % 256] 1000 HAL_OK,
           Event.receive h.hi2c 0x90 1 1000 st b] })) ∨
    (∃ b dev2, LMP91000_ReadRegister hal (some h) reg (some d) w =
      ((LMP91000_OK, some (bufferAfter b d)),
       { dev := dev2
         trace := w.trace ++ [Event.transmit h.hi2c 0x90 [reg % 256] 1000 HAL_OK,
           Event.receive h.hi2c 0x90 1 1000 HAL_OK b] })) := by
  simp only [LMP91000_ReadRegister, HAL_I2C_Master_Transmit, HAL_I2C_Master_Receive,
    i2c_addr_eq, LMP91000_I2C_TIMEOUT]
  generalize hal.transmit w.dev h.hi2c 0x90 [reg % 256] 1000 = t
  obtain ⟨st1, d1⟩ := t
  simp only []
  generalize hal.receive d1 h.hi2c 0x90 1 1000 = r
  obtain ⟨⟨st2, b⟩, d2⟩ := r
  simp only []
  by_cases h1 : st1 = HAL_OK
  · subst h1
    by_cases h2 : st2 = HAL_OK
    · subst h2
      exact Or.inr (Or.inr ⟨b, d2, by simp⟩)
    · exact Or.inr (Or.inl ⟨st2, b, d2, h2, by simp [h2]⟩)
  · exact Or.inl ⟨st1, d1, h1, by simp [h1]⟩

theorem writeRegister_spec (hal : HAL σ) (h : LMP91000_Handle_t) (reg data : Nat)
    (w : World σ) :
    ∃ st, (LMP91000_WriteRegister hal (some h) reg data w).2.trace =
        w.trace ++ [Event.transmit h.hi2c 0x90 [reg % 256, data % 256] 1000 st] ∧
      (LMP91000_WriteRegister hal (some h) reg data w).1 =
        if st = HAL_OK then LMP91000_OK else LMP91000_ERROR_I2C :=
  ⟨_, writeRegister_trace hal h reg data w, writeRegister_status hal h reg data w⟩

theorem readRegister_spec (hal : HAL σ) (h : LMP91000_Handle_t) (reg d : Nat)
    (w : World σ) :
    ∃ l, (LMP91000_ReadRegister hal (some h) reg (some d) w).2.trace = w.trace ++ l ∧
    ((∃ st, st ≠ HAL_OK ∧
        (LMP91000_ReadRegister hal (some h) reg (some d) w).1.1 = LMP91000_ERROR_I2C ∧
        l = [Event.transmit h.hi2c 0x90 [reg % 256] 1000 st]) ∨
     (∃ st b, st ≠ HAL_OK ∧
        (LMP91000_ReadRegister hal (some h) reg (some d) w).1.1 = LMP91000_ERROR_I2C ∧
        l = [Event.transmit h.hi2c 0x90 [reg % 256] 1000 HAL_OK,
             Event.receive h.hi2c 0x90 1 1000 st b]) ∨
     (∃ b, (LMP91000_ReadRegister hal (some h) reg (some d) w).1 =
          (LMP91000_OK, some (bufferAfter b d)) ∧
        l = [Event.transmit h.hi2c 0x90 [reg % 256] 1000 HAL_OK,
             Event.receive h.hi2c 0x90 1 1000 HAL_OK b])) := by
  rcases readRegister_cases hal h reg d w with ⟨st, d2, hst, e⟩ | ⟨st, b, d2, hst, e⟩ |
    ⟨b, d2, e⟩
  · exact ⟨_, by rw [e], Or.inl ⟨st, hst, by rw [e], rfl⟩⟩
  · exact ⟨_, by rw [e], Or.inr (Or.inl ⟨st, b, hst, by rw [e], rfl⟩)⟩
  · exact ⟨_, by rw [e], Or.inr (Or.inr ⟨b, by rw [e], rfl⟩)⟩

/-- The four ways a call of `LMP91000_SetTIA` can go: one of the three writes
fails and the call stops there, or all three succeed. -/
theorem setTIA_cases (hal : HAL σ) (h : LMP91000_Handle_t) (gain rload : Nat) (w : World σ)
    (r : LMP91000_Status_t) (w2 : World σ)
    (hrun : LMP91000_SetTIA hal (some h) gain rload w = (r, w2)) :
    ∃ l, w2.trace = w.trace ++ l ∧
    ((∃ st, st ≠ HAL_OK ∧ r = LMP91000_ERROR_I2C ∧
        l = [Event.transmit h.hi2c 0x90 [0x01, 0x00] 1000 st]) ∨
     (∃ st, st ≠ HAL_OK ∧ r = LMP91000_ERROR_I2C ∧
        l = [Event.transmit h.hi2c 0x90 [0x01, 0x00] 1000 HAL_OK,
             Event.transmit h.hi2c 0x90 [0x10, ((gain <<< 2) ||| rload) % 256] 1000 st]) ∨
     (∃ st, st ≠ HAL_OK ∧ r = LMP91000_ERROR_I2C ∧
        l = [Event.transmit h.hi2c 0x90 [0x01, 0x00] 1000 HAL_OK,
             Event.transmit h.hi2c 0x90 [0x10, ((gain <<< 2) ||| rload) % 256] 1000 HAL_OK,
             Event.transmit h.hi2c 0x90 [0x01, 0x01] 1000 st]) ∨
     (r = LMP91000_OK ∧
        l = [Event.transmit h.hi2c 0x90 [0x01, 0x00] 1000 HAL_OK,
             Event.transmit h.hi2c 0x90 [0x10, ((gain <<< 2) ||| rload) % 256] 1000 HAL_OK,
             Event.transmit h.hi2c 0x90 [0x01, 0x01] 1000 HAL_OK])) := by
  simp only [LMP91000_SetTIA] at hrun
  obtain ⟨s1, ht1, hr1⟩ := writeRegister_spec hal h LMP91000_REG_LOCK 0x00 w
  generalize LMP91000_WriteRegister hal (some h) LMP91000_REG_LOCK 0x00 w = u at ht1 hr1 hrun
  obtain ⟨r1, w1⟩ := u
  simp only [] at ht1 hr1 hrun
  by_cases h1 : s1 = HAL_OK
  swap
  · simp only [hr1, h1, if_false, ne_eq, not_false_eq_true, if_true, reduceCtorEq,
      Prod.mk.injEq] at hrun
    obtain ⟨rfl, rfl⟩ := hrun
    exact ⟨_, ht1, Or.inl ⟨s1, h1, rfl, by simp [LMP91000_REG_LOCK]⟩⟩
  subst h1
  simp only [hr1, if_true, ne_eq, not_true_eq_false, if_false] at hrun
  obtain ⟨s2, ht2, hr2⟩ := writeRegister_spec hal h LMP91000_REG_TIACN
    (((gain <<< 2) ||| rload) % 256) w1
  generalize LMP91000_WriteRegister hal (some h) LMP91000_REG_TIACN
    (((gain <<< 2) ||| rload) % 256) w1 = u at ht2 hr2 hrun
  obtain ⟨r2, w2'⟩ := u
  simp only [] at ht2 hr2 hrun
  by_cases h2 : s2 = HAL_OK
  swap
  · simp only [hr2, h2, if_false, ne_eq, not_false_eq_true, if_true, reduceCtorEq,
      Prod.mk.injEq] at hrun
    obtain ⟨rfl, rfl⟩ := hrun
    refine ⟨_, ?_, Or.inr (Or.inl ⟨s2, h2, rfl, rfl⟩)⟩
    simp [ht2, ht1, LMP91000_REG_LOCK, LMP91000_REG_TIACN]
  subst h2
  simp only [hr2, if_true, ne_eq, not_true_eq_false, if_false] at hrun
  obtain ⟨s3, ht3, hr3⟩ := writeRegister_spec hal h LMP91000_REG_LOCK 0x01 w2'
  generalize LMP91000_WriteRegister hal (some h) LMP91000_REG_LOCK 0x01 w2' = u at ht3 hr3 hrun
  obtain ⟨r3, w3⟩ := u
  simp only [] at ht3 hr3 hrun
  by_cases h3 : s3 = HAL_OK
  swap
  · simp only [hr3, h3, if_false, ne_eq, not_false_eq_true, if_true, reduceCtorEq,
      Prod.mk.injEq] at hrun
    obtain ⟨rfl, rfl⟩ := hrun
    refine ⟨_, ?_, Or.inr (Or.inr (Or.inl ⟨s3, h3, rfl, rfl⟩))⟩
    simp [ht3, ht2, ht1, LMP91000_REG_LOCK, LMP91000_REG_TIACN]
  subst h3
  simp only [hr3, if_true, ne_eq, not_true_eq_false, if_false, Prod.mk.injEq] at hrun
  obtain ⟨rfl, rfl⟩ := hrun
  refine ⟨_, ?_, Or.inr (Or.inr (Or.inr ⟨rfl, rfl⟩))⟩
  simp [ht3, ht2, ht1, LMP91000_REG_LOCK, LMP91000_REG_TIACN]

/-- The six ways a locked read-modify-write of REFCN can go: one of its five
transactions fails and the call stops there, or all five succeed. -/
theorem lockedReadModifyWrite_cases (hal : HAL σ) (h : LMP91000_Handle_t)
    (merge : Nat → Nat) (w : World σ) (r : LMP91000_Status_t) (w2 : World σ)
    (hrun : lockedReadModifyWrite hal h merge w = (r, w2)) :
    ∃ l, w2.trace = w.trace ++ l ∧
    ((∃ st, st ≠ HAL_OK ∧ r = LMP91000_ERROR_I2C ∧
        l = [Event.transmit h.hi2c 0x90 [0x01, 0x00] 1000 st]) ∨
     (∃ st, st ≠ HAL_OK ∧ r = LMP91000_ERROR_I2C ∧
        l = [Event.transmit h.hi2c 0x90 [0x01, 0x00] 1000 HAL_OK,
             Event.transmit h.hi2c 0x90 [0x11] 1000 st]) ∨
     (∃ st b, st ≠ HAL_OK ∧ r = LMP91000_ERROR_I2C ∧
        l = [Event.transmit h.hi2c 0x90 [0x01, 0x00] 1000 HAL_OK,
             Event.transmit h.hi2c 0x90 [0x11] 1000 HAL_OK,
             Event.receive h.hi2c 0x90 1 1000 st b]) ∨
     (∃ st b, st ≠ HAL_OK ∧ r = LMP91000_ERROR_I2C ∧
        l = [Event.transmit h.hi2c 0x90 [0x01, 0x00] 1000 HAL_OK,
             Event.transmit h.hi2c 0x90 [0x11] 1000 HAL_OK,
             Event.receive h.hi2c 0x90 1 1000 HAL_OK b,
             Event.transmit h.hi2c 0x90 [0x11, merge (bufferAfter b 0) % 256] 1000 st]) ∨
     (∃ st b, st ≠ HAL_OK ∧ r = LMP91000_ERROR_I2C ∧
        l = [Event.transmit h.hi2c 0x90 [0x01, 0x00] 1000 HAL_OK,
             Event.transmit h.hi2c 0x90 [0x11] 1000 HAL_OK,
             Event.receive h.hi2c 0x90 1 1000 HAL_OK b,
             Event.transmit h.hi2c 0x90 [0x11, merge (bufferAfter b 0) % 256] 1000 HAL_OK,
             Event.transmit h.hi2c 0x90 [0x01, 0x01] 1000 st]) ∨
     (∃ b, r = LMP91000_OK ∧
        l = [Event.transmit h.hi2c 0x90 [0x01, 0x00] 1000 HAL_OK,
             Event.transmit h.hi2c 0x90 [0x11] 1000 HAL_OK,
             Event.receive h.hi2c 0x90 1 1000 HAL_OK b,
             Event.transmit h.hi2c 0x90 [0x11, merge (bufferAfter b 0) % 256] 1000 HAL_OK,
             Event.transmit h.hi2c 0x90 [0x01, 0x01] 1000 HAL_OK])) := by
  simp only [lockedReadModifyWrite] at hrun
  obtain ⟨s1, ht1, hr1⟩ := writeRegister_spec hal h LMP91000_REG_LOCK 0x00 w
  generalize LMP91000_WriteRegister hal (some h) LMP91000_REG_LOCK 0x00 w = u at ht1 hr1 hrun
  obtain ⟨r1, w1⟩ := u
  simp only [] at ht1 hr1 hrun
  by_cases h1 : s1 = HAL_OK
  swap
  · simp only [hr1, h1, if_false, ne_eq, not_false_eq_true, if_true, reduceCtorEq,
      Prod.mk.injEq] at hrun
    obtain ⟨rfl, rfl⟩ := hrun
    exact ⟨_, ht1, Or.inl ⟨s1, h1, rfl, by simp [LMP91000_REG_LOCK]⟩⟩
  subst h1
  simp only [hr1, if_true, ne_eq, not_true_eq_false, if_false] at hrun
  obtain ⟨lr, htr, hcs⟩ := readRegister_spec hal h LMP91000_REG_REFCN 0 w1
  generalize LMP91000_ReadRegister hal (some h) LMP91000_REG_REFCN (some 0) w1 = u
    at htr hcs hrun
  obtain ⟨⟨rr, cell⟩, wr⟩ := u
  simp only [] at htr hcs hrun
  rcases hcs with ⟨st, hst, hrr, hl⟩ | ⟨st, b, hst, hrr, hl⟩ | ⟨b, hrr, hl⟩
  · subst hrr
    simp only [ne_eq, reduceCtorEq, not_false_eq_true, if_true, Prod.mk.injEq] at hrun
    obtain ⟨rfl, rfl⟩ := hrun
    refine ⟨_, ?_, Or.inr (Or.inl ⟨st, hst, rfl, rfl⟩)⟩
    simp [htr, ht1, hl, LMP91000_REG_LOCK, LMP91000_REG_REFCN]
  · subst hrr
    simp only [ne_eq, reduceCtorEq, not_false_eq_true, if_true, Prod.mk.injEq] at hrun
    obtain ⟨rfl, rfl⟩ := hrun
    refine ⟨_, ?_, Or.inr (Or.inr (Or.inl ⟨st, b, hst, rfl, rfl⟩))⟩
    simp [htr, ht1, hl, LMP91000_REG_LOCK, LMP91000_REG_REFCN]
  simp only [Prod.mk.injEq] at hrr
  obtain ⟨rfl, rfl⟩ := hrr
  simp only [ne_eq, not_true_eq_false, if_false, Option.getD_some] at hrun
  obtain ⟨s3, ht3, hr3⟩ := writeRegister_spec hal h LMP91000_REG_REFCN
    (merge (bufferAfter b 0)) wr
  generalize LMP91000_WriteRegister hal (some h) LMP91000_REG_REFCN
    (merge (bufferAfter b 0)) wr = u
    at ht3 hr3 hrun
  obtain ⟨r3, w3⟩ := u
  simp only [] at ht3 hr3 hrun
  by_cases h3 : s3 = HAL_OK
  swap
  · simp only [hr3, h3, if_false, ne_eq, not_false_eq_true, if_true, reduceCtorEq,
      Prod.mk.injEq] at hrun
    obtain ⟨rfl, rfl⟩ := hrun
    refine ⟨_, ?_, Or.inr (Or.inr (Or.inr (Or.inl ⟨s3, b, h3, rfl, rfl⟩)))⟩
    simp [ht3, htr, ht1, hl, LMP91000_REG_LOCK, LMP91000_REG_REFCN]
  subst h3
  simp only [hr3, if_true, ne_eq, not_true_eq_false, if_false] at hrun
  obtain ⟨s4, ht4, hr4⟩ := writeRegister_spec hal h LMP91000_REG_LOCK 0x01 w3
  generalize LMP91000_WriteRegister hal (some h) LMP91000_REG_LOCK 0x01 w3 = u at ht4 hr4 hrun
  obtain ⟨r4, w4⟩ := u
  simp only [] at ht4 hr4 hrun
  by_cases h4 : s4 = HAL_OK
  swap
  · simp only [hr4, h4, if_false, ne_eq, not_false_eq_true, if_true, reduceCtorEq,
      Prod.mk.injEq] at hrun
    obtain ⟨rfl, rfl⟩ := hrun
    refine ⟨_, ?_, Or.inr (Or.inr (Or.inr (Or.inr (Or.inl ⟨s4, b, h4, rfl, rfl⟩))))⟩
    simp [ht4, ht3, htr, ht1, hl, LMP91000_REG_LOCK, LMP91000_REG_REFCN]
  subst h4
  simp only [hr4, if_true, ne_eq, not_true_eq_false, if_false, Prod.mk.injEq] at hrun
  obtain ⟨rfl, rfl⟩ := hrun
  refine ⟨_, ?_, Or.inr (Or.inr (Or.inr (Or.inr (Or.inr ⟨b, rfl, rfl⟩))))⟩
  simp [ht4, ht3, htr, ht1, hl, LMP91000_REG_LOCK, LMP91000_REG_REFCN]

theorem setReference_eq (hal : HAL σ) (h : LMP91000_Handle_t) (ref_source int_zero : Nat)
    (w : World σ) :
    LMP91000_SetReference hal (some h) ref_source int_zero w =
      lockedReadModifyWrite hal h
        (fun refcn => ((refcn &&& 0x1F) ||| (ref_source <<< 7) ||| (int_zero <<< 5)) % 256) w :=
  rfl

theorem setBias_eq (hal : HAL σ) (h : LMP91000_Handle_t) (sign level : Nat) (w : World σ) :
    LMP91000_SetBias hal (some h) sign level w =
      lockedReadModifyWrite hal h
        (fun refcn => ((refcn &&& 0xE0) ||| (sign <<< 4) ||| level) % 256) w :=
  rfl

theorem setTIA_stops (hal : HAL σ) (h : LMP91000_Handle_t) (gain rload : Nat)
    (w : World σ) :
    StopsAtFailure w (LMP91000_SetTIA hal (some h) gain rload w).1
      (LMP91000_SetTIA hal (some h) gain rload w).2 := by
  obtain ⟨l, htr, hc⟩ := setTIA_cases hal h gain rload w
      (LMP91000_SetTIA hal (some h) gain rload w).1
      (LMP91000_SetTIA hal (some h) gain rload w).2 rfl
  refine stopsAtFailure_of_shape l htr ?_ ?_
  · rcases hc with ⟨st, _, _, rfl⟩ | ⟨st, _, _, rfl⟩ | ⟨st, _, _, rfl⟩ | ⟨_, rfl⟩ <;>
      simp [Event.failed]
  · rcases hc with ⟨st, _, hr, rfl⟩ | ⟨st, _, hr, rfl⟩ | ⟨st, _, hr, rfl⟩ | ⟨hr, rfl⟩ <;>
      simp [Event.failed, hr]

theorem lockedReadModifyWrite_stops (hal : HAL σ) (h : LMP91000_Handle_t)
    (merge : Nat → Nat) (w : World σ) :
    StopsAtFailure w (lockedReadModifyWrite hal h merge w).1
      (lockedReadModifyWrite hal h merge w).2 := by
  obtain ⟨l, htr, hc⟩ := lockedReadModifyWrite_cases hal h merge w
    (lockedReadModifyWrite hal h merge w).1 (lockedReadModifyWrite hal h merge w).2 rfl
  refine stopsAtFailure_of_shape l htr ?_ ?_
  · rcases hc with ⟨st, _, _, rfl⟩ | ⟨st, _, _, rfl⟩ | ⟨st, b, _, _, rfl⟩ |
      ⟨st, b, _, _, rfl⟩ | ⟨st, b, _, _, rfl⟩ | ⟨b, _, rfl⟩ <;>
      simp [Event.failed]
  · rcases hc with ⟨st, _, hr, rfl⟩ | ⟨st, _, hr, rfl⟩ | ⟨st, b, _, hr, rfl⟩ |
      ⟨st, b, _, hr, rfl⟩ | ⟨st, b, _, hr, rfl⟩ | ⟨b, hr, rfl⟩ <;>
      simp [Event.failed, hr]

/-- The three transactions of a successful `LMP91000_SetTIA` satisfy the strict
reading of the lock bracket. -/
theorem immediatelyBracketed_tia (i : Option Nat) (v : Nat) :
    ImmediatelyBracketed
      [Event.transmit i 0x90 [0x01, 0x00] 1000 HAL_OK,
       Event.transmit i 0x90 [0x10, v] 1000 HAL_OK,
       Event.transmit i 0x90 [0x01, 0x01] 1000 HAL_OK] := by
  intro pre e post heq hp
  rcases pre with _ | ⟨p1, _ | ⟨p2, _ | ⟨p3, pre⟩⟩⟩ <;>
    simp only [List.nil_append, List.cons_append, List.cons.injEq, List.nil_eq,
      List.append_eq_nil, reduceCtorEq, and_false, false_and] at heq
  · obtain ⟨rfl, rfl⟩ := heq
    simp [Event.isProtectedWrite, Event.isWriteTo, LMP91000_REG_TIACN, LMP91000_REG_REFCN] at hp
  · obtain ⟨rfl, rfl, rfl⟩ := heq
    exact ⟨⟨[], _, rfl, by simp [Event.isWrite, LMP91000_REG_LOCK]⟩,
      ⟨_, [], rfl, by simp [Event.isWrite, LMP91000_REG_LOCK]⟩⟩
  · obtain ⟨rfl, rfl, rfl, rfl⟩ := heq
    simp [Event.isProtectedWrite, Event.isWriteTo, LMP91000_REG_TIACN, LMP91000_REG_REFCN] at hp

/-- The five transactions of a successful locked read-modify-write of REFCN
satisfy the lock bracket with the read-back between unlock and write. -/
theorem bracketed_rmw (i : Option Nat) (b : Option Nat) (v : Nat) :
    Bracketed
      [Event.transmit i 0x90 [0x01, 0x00] 1000 HAL_OK,
       Event.transmit i 0x90 [0x11] 1000 HAL_OK,
       Event.receive i 0x90 1 1000 HAL_OK b,
       Event.transmit i 0x90 [0x11, v] 1000 HAL_OK,
       Event.transmit i 0x90 [0x01, 0x01] 1000 HAL_OK] := by
  intro pre e post heq hp
  rcases pre with _ | ⟨p1, _ | ⟨p2, _ | ⟨p3, _ | ⟨p4, _ | ⟨p5, pre⟩⟩⟩⟩⟩ <;>
    simp only [List.nil_append, List.cons_append, List.cons.injEq, List.nil_eq,
      List.append_eq_nil, reduceCtorEq, and_false, false_and] at heq
  · obtain ⟨rfl, rfl⟩ := heq
    simp [Event.isProtectedWrite, Event.isWriteTo, LMP91000_REG_TIACN, LMP91000_REG_REFCN] at hp
  · obtain ⟨rfl, rfl, rfl⟩ := heq
    simp [Event.isProtectedWrite, Event.isWriteTo, LMP91000_REG_TIACN, LMP91000_REG_REFCN] at hp
  · obtain ⟨rfl, rfl, rfl, rfl⟩ := heq
    simp [Event.isProtectedWrite, Event.isWriteTo, LMP91000_REG_TIACN, LMP91000_REG_REFCN] at hp
  · obtain ⟨rfl, rfl, rfl, rfl, rfl⟩ := heq
    refine ⟨⟨[], _, [_, _], rfl, by simp [Event.isWrite, LMP91000_REG_LOCK], ?_⟩,
      ⟨_, [], rfl, by simp [Event.isWrite, LMP91000_REG_LOCK]⟩⟩
    intro m hm
    simp only [List.mem_cons, List.mem_singleton, List.not_mem_nil, or_false] at hm
    rcases hm with rfl | rfl <;> simp [Event.isReadStep, LMP91000_REG_REFCN]
  · obtain ⟨rfl, rfl, rfl, rfl, rfl, rfl⟩ := heq
    simp [Event.isProtectedWrite, Event.isWriteTo, LMP91000_REG_TIACN, LMP91000_REG_REFCN] at hp

/-- A successful locked read-modify-write appended five transactions that
satisfy the lock bracket and contain the REFCN write. -/
theorem lockedReadModifyWrite_bracketed (hal : HAL σ) (h : LMP91000_Handle_t)
    (merge : Nat → Nat) (w : World σ)
    (hok : (lockedReadModifyWrite hal h merge w).1 = LMP91000_OK) :
    ∃ l, (lockedReadModifyWrite hal h merge w).2.trace = w.trace ++ l ∧
      (∃ e ∈ l, e.isProtectedWrite = true) ∧ Bracketed l := by
  obtain ⟨l, htr, hc⟩ := lockedReadModifyWrite_cases hal h merge w
    (lockedReadModifyWrite hal h merge w).1 (lockedReadModifyWrite hal h merge w).2 rfl
  rw [hok] at hc
  rcases hc with ⟨st, _, hr, _⟩ | ⟨st, _, hr, _⟩ | ⟨st, b, _, hr, _⟩ |
      ⟨st, b, _, hr, _⟩ | ⟨st, b, _, hr, _⟩ | ⟨b, _, rfl⟩
  · exact absurd hr (by decide)
  · exact absurd hr (by decide)
  · exact absurd hr (by decide)
  · exact absurd hr (by decide)
  · exact absurd hr (by decide)
  · refine ⟨_, htr, ⟨Event.transmit h.hi2c 0x90 [0x11, merge (bufferAfter b 0) % 256] 1000 HAL_OK,
      by simp, by simp [Event.isProtectedWrite, Event.isWriteTo, LMP91000_REG_REFCN]⟩,
      bracketed_rmw _ _ _⟩

/-- On the simulated register file a locked read-modify-write of REFCN
succeeds and leaves LOCK = 1, REFCN = the merged byte, every other register
as it was, with REFCN selected. -/
theorem lockedReadModifyWrite_regFile (h : LMP91000_Handle_t) (merge : Nat → Nat)
    (w : World RegFile) :
    (lockedReadModifyWrite regFileHAL h merge w).1 = LMP91000_OK ∧
    (lockedReadModifyWrite regFileHAL h merge w).2.dev =
      { regs := fun a => if a = 0x01 then 0x01
                         else if a = 0x11 then merge (w.dev.regs 0x11 % 256) % 256
                         else w.dev.regs a
        sel := 0x11 } := by
  constructor
  · simp [lockedReadModifyWrite, LMP91000_WriteRegister, LMP91000_ReadRegister,
      HAL_I2C_Master_Transmit, HAL_I2C_Master_Receive, regFileHAL, RegFile.store,
      i2c_addr_eq, LMP91000_REG_LOCK, LMP91000_REG_REFCN]
  · simp only [lockedReadModifyWrite, LMP91000_WriteRegister, LMP91000_ReadRegister,
      HAL_I2C_Master_Transmit, HAL_I2C_Master_Receive, regFileHAL, RegFile.store,
      i2c_addr_eq, LMP91000_REG_LOCK, LMP91000_REG_REFCN, bufferAfter]
    simp only [Nat.reduceMod, if_true, ne_eq, not_true_eq_false, if_false, and_self,
      Option.getD_some, Nat.reduceEqDiff, OfNat.ofNat_ne_one]
    congr 1
    funext a
    by_cases h1 : a = 1
    · simp [h1]
    · by_cases h2 : a = 17
      · simp [h2]
      · simp [h1, h2]

theorem refcn_both_orders : ∀ s < 2, ∀ z < 4, ∀ g < 2, ∀ l < 14,
    (((s <<< 7) ||| (z <<< 5)) ||| (g <<< 4) ||| l) % 256 =
        (s <<< 7) ||| (z <<< 5) ||| (g <<< 4) ||| l ∧
    (((g <<< 4) ||| l) ||| (s <<< 7) ||| (z <<< 5)) % 256 =
        (s <<< 7) ||| (z <<< 5) ||| (g <<< 4) ||| l := by
  decide

/-! ### The register primitives on the scripted bus -/

theorem writeRegister_scripted_ok (h : LMP91000_Handle_t) (reg data : Nat) (b : Option Nat)
    (rest : List (HAL_StatusTypeDef × Option Nat)) (tr : List Event) :
    LMP91000_WriteRegister scriptedHAL (some h) reg data ⟨(HAL_OK, b) :: rest, tr⟩ =
      (LMP91000_OK,
       ⟨rest, tr ++ [Event.transmit h.hi2c 0x90 [reg % 256, data % 256] 1000 HAL_OK]⟩) := by
  simp [LMP91000_WriteRegister, HAL_I2C_Master_Transmit, scriptedHAL, i2c_addr_eq,
    LMP91000_I2C_TIMEOUT]

theorem writeRegister_scripted_fail (h : LMP91000_Handle_t) (reg data : Nat)
    (st : HAL_StatusTypeDef) (b : Option Nat)
    (rest : List (HAL_StatusTypeDef × Option Nat)) (tr : List Event) (hst : st ≠ HAL_OK) :
    LMP91000_WriteRegister scriptedHAL (some h) reg data ⟨(st, b) :: rest, tr⟩ =
      (LMP91000_ERROR_I2C,
       ⟨rest, tr ++ [Event.transmit h.hi2c 0x90 [reg % 256, data % 256] 1000 st]⟩) := by
  simp [LMP91000_WriteRegister, HAL_I2C_Master_Transmit, scriptedHAL, i2c_addr_eq,
    LMP91000_I2C_TIMEOUT, hst]

theorem readRegister_scripted_ok (h : LMP91000_Handle_t) (reg d : Nat) (b1 b2 : Option Nat)
    (rest : List (HAL_StatusTypeDef × Option Nat)) (tr : List Event) :
    LMP91000_ReadRegister scriptedHAL (some h) reg (some d)
        ⟨(HAL_OK, b1) :: (HAL_OK, b2) :: rest, tr⟩ =
      ((LMP91000_OK, some (bufferAfter b2 d)),
       ⟨rest, tr ++ [Event.transmit h.hi2c 0x90 [reg % 256] 1000 HAL_OK,
          Event.receive h.hi2c 0x90 1 1000 HAL_OK b2]⟩) := by
  simp [LMP91000_ReadRegister, HAL_I2C_Master_Transmit, HAL_I2C_Master_Receive, scriptedHAL,
    i2c_addr_eq, LMP91000_I2C_TIMEOUT]

theorem readRegister_scripted_fail_select (h : LMP91000_Handle_t) (reg d : Nat)
    (st : HAL_StatusTypeDef) (b : Option Nat)
    (rest : List (HAL_StatusTypeDef × Option Nat)) (tr : List Event) (hst : st ≠ HAL_OK) :
    LMP91000_ReadRegister scriptedHAL (some h) reg (some d) ⟨(st, b) :: rest, tr⟩ =
      ((LMP91000_ERROR_I2C, some d),
       ⟨rest, tr ++ [Event.transmit h.hi2c 0x90 [reg % 256] 1000 st]⟩) := by
  simp [LMP91000_ReadRegister, HAL_I2C_Master_Transmit, scriptedHAL, i2c_addr_eq,
    LMP91000_I2C_TIMEOUT, hst]

theorem readRegister_scripted_fail_receive (h : LMP91000_Handle_t) (reg d : Nat)
    (st : HAL_StatusTypeDef) (b1 b : Option Nat)
    (rest : List (HAL_StatusTypeDef × Option Nat)) (tr : List Event) (hst : st ≠ HAL_OK) :
    LMP91000_ReadRegister scriptedHAL (some h) reg (some d)
        ⟨(HAL_OK, b1) :: (st, b) :: rest, tr⟩ =
      ((LMP91000_ERROR_I2C, some (bufferAfter b d)),
       ⟨rest, tr ++ [Event.transmit h.hi2c 0x90 [reg % 256] 1000 HAL_OK,
          Event.receive h.hi2c 0x90 1 1000 st b]⟩) := by
  simp [LMP91000_ReadRegister, HAL_I2C_Master_Transmit, HAL_I2C_Master_Receive, scriptedHAL,
    i2c_addr_eq, LMP91000_I2C_TIMEOUT, hst]

/-! ### Abort at each failure position, on the scripted bus -/

theorem writeRegister_aborts (h : LMP91000_Handle_t) (reg data : Nat)
    (oks : List (HAL_StatusTypeDef × Option Nat)) (st : HAL_StatusTypeDef) (b : Option Nat)
    (rest : List (HAL_StatusTypeDef × Option Nat))
    (hst : st ≠ HAL_OK) (hlen : oks.length < 1) :
    AbortsAtFailure (fun w => LMP91000_WriteRegister scriptedHAL (some h) reg data w)
      oks st b rest := by
  intro tr
  rcases oks with _ | ⟨x, oks⟩
  · simp [writeRegister_scripted_fail _ _ _ _ _ _ _ hst, Event.isBus, Event.failed,
      Event.status]
  · simp only [List.length_cons] at hlen
    omega

theorem readRegister_aborts (h : LMP91000_Handle_t) (reg d : Nat)
    (oks : List (HAL_StatusTypeDef × Option Nat)) (st : HAL_StatusTypeDef) (b : Option Nat)
    (rest : List (HAL_StatusTypeDef × Option Nat))
    (hoks : ∀ x ∈ oks, x.1 = HAL_OK) (hst : st ≠ HAL_OK) (hlen : oks.length < 2) :
    AbortsAtFailure
      (fun w => ((LMP91000_ReadRegister scriptedHAL (some h) reg (some d) w).1.1,
                 (LMP91000_ReadRegister scriptedHAL (some h) reg (some d) w).2))
      oks st b rest := by
  intro tr
  rcases oks with _ | ⟨⟨s1, b1⟩, _ | ⟨x, oks⟩⟩
  · simp [readRegister_scripted_fail_select _ _ _ _ _ _ _ hst, Event.isBus, Event.failed,
      Event.status]
  · obtain rfl : s1 = HAL_OK := by simpa using hoks
    simp [readRegister_scripted_fail_receive _ _ _ _ _ _ _ _ hst, Event.isBus, Event.failed,
      Event.status]
  · simp only [List.length_cons] at hlen
    omega

theorem init_aborts (h : LMP91000_Handle_t) (i : Nat) (menb_port : Option Nat)
    (menb_pin : Nat)
    (oks : List (HAL_StatusTypeDef × Option Nat)) (st : HAL_StatusTypeDef) (b : Option Nat)
    (rest : List (HAL_StatusTypeDef × Option Nat))
    (hoks : ∀ x ∈ oks, x.1 = HAL_OK) (hst : st ≠ HAL_OK) (hlen : oks.length < 2) :
    AbortsAtFailure
      (fun w => ((LMP91000_Init scriptedHAL (some h) (some i) menb_port menb_pin w).1.1,
                 (LMP91000_Init scriptedHAL (some h) (some i) menb_port menb_pin w).2))
      oks st b rest := by
  intro tr
  have hg : ∀ (s : List (HAL_StatusTypeDef × Option Nat)) p c, scriptedHAL.gpio_init s p c = s :=
    fun _ _ _ => rfl
  have hw : ∀ (s : List (HAL_StatusTypeDef × Option Nat)) p n v,
      scriptedHAL.gpio_write s p n v = s := fun _ _ _ _ => rfl
  have hd : ∀ (s : List (HAL_StatusTypeDef × Option Nat)) n, scriptedHAL.delay s n = s :=
    fun _ _ => rfl
  rcases oks with _ | ⟨⟨s1, b1⟩, _ | ⟨x, oks⟩⟩
  · simp [LMP91000_Init, HAL_GPIO_Init, HAL_GPIO_WritePin, HAL_Delay, hg, hw, hd,
      readRegister_scripted_fail_select _ _ _ _ _ _ _ hst, Event.isBus, Event.failed,
      Event.status]
  · obtain rfl : s1 = HAL_OK := by simpa using hoks
    simp [LMP91000_Init, HAL_GPIO_Init, HAL_GPIO_WritePin, HAL_Delay, hg, hw, hd,
      readRegister_scripted_fail_receive _ _ _ _ _ _ _ _ hst, Event.isBus, Event.failed,
      Event.status]
  · simp only [List.length_cons] at hlen
    omega

theorem setTIA_aborts (h : LMP91000_Handle_t) (gain rload : Nat)
    (oks : List (HAL_StatusTypeDef × Option Nat)) (st : HAL_StatusTypeDef) (b : Option Nat)
    (rest : List (HAL_StatusTypeDef × Option Nat))
    (hoks : ∀ x ∈ oks, x.1 = HAL_OK) (hst : st ≠ HAL_OK) (hlen : oks.length < 3) :
    AbortsAtFailure (fun w => LMP91000_SetTIA scriptedHAL (some h) gain rload w)
      oks st b rest := by
  intro tr
  rcases oks with _ | ⟨⟨s1, b1⟩, _ | ⟨⟨s2, b2⟩, _ | ⟨x, oks⟩⟩⟩
  · simp [LMP91000_SetTIA, writeRegister_scripted_fail _ _ _ _ _ _ _ hst,
      Event.isBus, Event.failed, Event.status]
  · obtain rfl : s1 = HAL_OK := by simpa using hoks
    simp [LMP91000_SetTIA, writeRegister_scripted_ok,
      writeRegister_scripted_fail _ _ _ _ _ _ _ hst, Event.isBus, Event.failed, Event.status]
  · obtain ⟨rfl, rfl⟩ : s1 = HAL_OK ∧ s2 = HAL_OK := by simpa using hoks
    simp [LMP91000_SetTIA, writeRegister_scripted_ok,
      writeRegister_scripted_fail _ _ _ _ _ _ _ hst, Event.isBus, Event.failed, Event.status]
  · simp only [List.length_cons] at hlen
    omega

theorem lockedReadModifyWrite_aborts (h : LMP91000_Handle_t) (merge : Nat → Nat)
    (oks : List (HAL_StatusTypeDef × Option Nat)) (st : HAL_StatusTypeDef) (b : Option Nat)
    (rest : List (HAL_StatusTypeDef × Option Nat))
    (hoks : ∀ x ∈ oks, x.1 = HAL_OK) (hst : st ≠ HAL_OK) (hlen : oks.length < 5) :
    AbortsAtFailure (fun w => lockedReadModifyWrite scriptedHAL h merge w) oks st b rest := by
  intro tr
  rcases oks with _ | ⟨⟨s1, b1⟩, _ | ⟨⟨s2, b2⟩, _ | ⟨⟨s3, b3⟩, _ | ⟨⟨s4, b4⟩, _ |
    ⟨⟨s5, b5⟩, _ | ⟨x, oks⟩⟩⟩⟩⟩⟩
  · simp [lockedReadModifyWrite, writeRegister_scripted_fail _ _ _ _ _ _ _ hst,
      Event.isBus, Event.failed, Event.status]
  · obtain rfl : s1 = HAL_OK := by simpa using hoks
    simp [lockedReadModifyWrite, writeRegister_scripted_ok,
      readRegister_scripted_fail_select _ _ _ _ _ _ _ hst,
      Event.isBus, Event.failed, Event.status]
  · obtain ⟨rfl, rfl⟩ : s1 = HAL_OK ∧ s2 = HAL_OK := by simpa using hoks
    simp [lockedReadModifyWrite, writeRegister_scripted_ok,
      readRegister_scripted_fail_receive _ _ _ _ _ _ _ _ hst,
      Event.isBus, Event.failed, Event.status]
  · obtain ⟨rfl, rfl, rfl⟩ : s1 = HAL_OK ∧ s2 = HAL_OK ∧ s3 = HAL_OK := by simpa using hoks
    simp [lockedReadModifyWrite, writeRegister_scripted_ok, readRegister_scripted_ok,
      writeRegister_scripted_fail _ _ _ _ _ _ _ hst,
      Event.isBus, Event.failed, Event.status]
  · obtain ⟨rfl, rfl, rfl, rfl⟩ : s1 = HAL_OK ∧ s2 = HAL_OK ∧ s3 = HAL_OK ∧ s4 = HAL_OK := by
      simpa using hoks
    simp [lockedReadModifyWrite, writeRegister_scripted_ok, readRegister_scripted_ok,
      writeRegister_scripted_fail _ _ _ _ _ _ _ hst,
      Event.isBus, Event.failed, Event.status]
  · simp only [List.length_cons] at hlen
    omega
  · simp only [List.length_cons] at hlen
    omega

end Lemmas

/-! ## Claims -/

section Claims

variable {σ : Type}

/-- C1: for gain in 0..7 and load in 0..3, on a bus whose transmits all
succeed, `LMP91000_SetTIA` with a non-null handle returns `LMP91000_OK` and
appends exactly three transmits to target 0x90 to the trace: `[0x01, 0x00]`,
`[0x10, (gain << 2) | load]`, `[0x01, 0x01]`, in this order. -/
theorem setTIA_unlock_write_lock (hal : HAL σ) (h : LMP91000_Handle_t) (gain rload : Nat)
    (w : World σ) (hg : gain ≤ 7) (hl : rload ≤ 3)
    (hok : ∀ s i a d t, (hal.transmit s i a d t).1 = HAL_OK) :
    (LMP91000_SetTIA hal (some h) gain rload w).1 = LMP91000_OK ∧
    (LMP91000_SetTIA hal (some h) gain rload w).2.trace = w.trace ++
      [Event.transmit h.hi2c 0x90 [0x01, 0x00] 1000 HAL_OK,
       Event.transmit h.hi2c 0x90 [0x10, (gain <<< 2) ||| rload] 1000 HAL_OK,
       Event.transmit h.hi2c 0x90 [0x01, 0x01] 1000 HAL_OK] := by
  have hb := tiacn_byte gain rload hg hl
  simp [LMP91000_SetTIA, writeRegister_status, writeRegister_trace, hok, hb,
    LMP91000_REG_LOCK, LMP91000_REG_TIACN]

/-- C1 witness: gain 3 (7 kΩ) and load 2 (50 Ω) on the always-succeeding bus. -/
theorem setTIA_unlock_write_lock_witness :
    (3 ≤ 7 ∧ 2 ≤ 3) ∧
    (LMP91000_SetTIA (idealHAL 0) (some ⟨some 1, some 2, 4⟩) 3 2 ⟨(), []⟩).1 = LMP91000_OK ∧
    (LMP91000_SetTIA (idealHAL 0) (some ⟨some 1, some 2, 4⟩) 3 2 ⟨(), []⟩).2.trace = [] ++
      [Event.transmit (some 1) 0x90 [0x01, 0x00] 1000 HAL_OK,
       Event.transmit (some 1) 0x90 [0x10, (3 <<< 2) ||| 2] 1000 HAL_OK,
       Event.transmit (some 1) 0x90 [0x01, 0x01] 1000 HAL_OK] :=
  ⟨by decide, setTIA_unlock_write_lock (idealHAL 0) ⟨some 1, some 2, 4⟩ 3 2 ⟨(), []⟩
    (by decide) (by decide) (fun _ _ _ _ _ => rfl)⟩

/-- C2: for source in {0,1}, zero in 0..3 and REFCN content `R` (a byte)
delivered by the read-back, on a bus whose transactions all succeed,
`LMP91000_SetReference` returns `LMP91000_OK` and issues unlock, the read of
0x11, the write `[0x11, (R & 0x1F) | (source << 7) | (zero << 5)]` and lock;
the low five bits of the written byte are those of `R`. -/
theorem setReference_merges_bias_bits (hal : HAL σ) (h : LMP91000_Handle_t)
    (ref_source int_zero R : Nat) (w : World σ)
    (hs : ref_source ≤ 1) (hz : int_zero ≤ 3) (hR : R < 256)
    (hok : ∀ s i a d t, (hal.transmit s i a d t).1 = HAL_OK)
    (hrx : ∀ s i a n t, (hal.receive s i a n t).1 = (HAL_OK, some R)) :
    (LMP91000_SetReference hal (some h) ref_source int_zero w).1 = LMP91000_OK ∧
    (LMP91000_SetReference hal (some h) ref_source int_zero w).2.trace = w.trace ++
      [Event.transmit h.hi2c 0x90 [0x01, 0x00] 1000 HAL_OK,
       Event.transmit h.hi2c 0x90 [0x11] 1000 HAL_OK,
       Event.receive h.hi2c 0x90 1 1000 HAL_OK (some R),
       Event.transmit h.hi2c 0x90
         [0x11, (R &&& 0x1F) ||| (ref_source <<< 7) ||| (int_zero <<< 5)] 1000 HAL_OK,
       Event.transmit h.hi2c 0x90 [0x01, 0x01] 1000 HAL_OK] ∧
    ((R &&& 0x1F) ||| (ref_source <<< 7) ||| (int_zero <<< 5)) &&& 0x1F = R &&& 0x1F := by
  have hb := refcn_ref_bits R hR ref_source (by omega) int_zero (by omega)
  have hR2 : R % 256 = R := Nat.mod_eq_of_lt hR
  refine ⟨?_, ?_, hb.2.1⟩
  · simp [LMP91000_SetReference, writeRegister_status, readRegister_ok hal h _ _ R _ hok hrx,
      hok]
  · simp [LMP91000_SetReference, writeRegister_status, writeRegister_trace,
      readRegister_ok hal h _ _ R _ hok hrx, hok, hb.1, hR2,
      LMP91000_REG_LOCK, LMP91000_REG_REFCN]

/-- C2 witness: external reference, 67 % zero, REFCN previously 0x5B. -/
theorem setReference_merges_bias_bits_witness :
    (1 ≤ 1 ∧ 2 ≤ 3 ∧ 0x5B < 256) ∧
    (LMP91000_SetReference (idealHAL 0x5B) (some ⟨some 1, some 2, 4⟩) 1 2 ⟨(), []⟩).1 =
      LMP91000_OK ∧
    (LMP91000_SetReference (idealHAL 0x5B) (some ⟨some 1, some 2, 4⟩) 1 2 ⟨(), []⟩).2.trace =
      [] ++
      [Event.transmit (some 1) 0x90 [0x01, 0x00] 1000 HAL_OK,
       Event.transmit (some 1) 0x90 [0x11] 1000 HAL_OK,
       Event.receive (some 1) 0x90 1 1000 HAL_OK (some 0x5B),
       Event.transmit (some 1) 0x90 [0x11, (0x5B &&& 0x1F) ||| (1 <<< 7) ||| (2 <<< 5)]
         1000 HAL_OK,
       Event.transmit (some 1) 0x90 [0x01, 0x01] 1000 HAL_OK] ∧
    ((0x5B &&& 0x1F) ||| (1 <<< 7) ||| (2 <<< 5)) &&& 0x1F = 0x5B &&& 0x1F :=
  ⟨by decide, setReference_merges_bias_bits (idealHAL 0x5B) ⟨some 1, some 2, 4⟩ 1 2 0x5B
    ⟨(), []⟩ (by decide) (by decide) (by decide) (fun _ _ _ _ _ => rfl)
    (fun _ _ _ _ _ => rfl)⟩

/-- C3: for sign in {0,1}, level in 0..13 and REFCN content `R` (a byte)
delivered by the read-back, on a bus whose transactions all succeed,
`LMP91000_SetBias` returns `LMP91000_OK` and writes
`(R & 0xE0) | (sign << 4) | level` to register 0x11 between unlock and lock;
the high three bits of the written byte are those of `R` and its low five
bits are `(sign << 4) | level`. -/
theorem setBias_merges_reference_bits (hal : HAL σ) (h : LMP91000_Handle_t)
    (sign level R : Nat) (w : World σ)
    (hs : sign ≤ 1) (hl : level ≤ 13) (hR : R < 256)
    (hok : ∀ s i a d t, (hal.transmit s i a d t).1 = HAL_OK)
    (hrx : ∀ s i a n t, (hal.receive s i a n t).1 = (HAL_OK, some R)) :
    (LMP91000_SetBias hal (some h) sign level w).1 = LMP91000_OK ∧
    (LMP91000_SetBias hal (some h) sign level w).2.trace = w.trace ++
      [Event.transmit h.hi2c 0x90 [0x01, 0x00] 1000 HAL_OK,
       Event.transmit h.hi2c 0x90 [0x11] 1000 HAL_OK,
       Event.receive h.hi2c 0x90 1 1000 HAL_OK (some R),
       Event.transmit h.hi2c 0x90 [0x11, (R &&& 0xE0) ||| (sign <<< 4) ||| level] 1000 HAL_OK,
       Event.transmit h.hi2c 0x90 [0x01, 0x01] 1000 HAL_OK] ∧
    ((R &&& 0xE0) ||| (sign <<< 4) ||| level) &&& 0xE0 = R &&& 0xE0 ∧
    ((R &&& 0xE0) ||| (sign <<< 4) ||| level) &&& 0x1F = (sign <<< 4) ||| level := by
  have hb := refcn_bias_bits R hR sign (by omega) level (by omega)
  have hR2 : R % 256 = R := Nat.mod_eq_of_lt hR
  refine ⟨?_, ?_, hb.2.1, hb.2.2⟩
  · simp [LMP91000_SetBias, writeRegister_status, readRegister_ok hal h _ _ R _ hok hrx, hok]
  · simp [LMP91000_SetBias, writeRegister_status, writeRegister_trace,
      readRegister_ok hal h _ _ R _ hok hrx, hok, hb.1, hR2,
      LMP91000_REG_LOCK, LMP91000_REG_REFCN]

/-- C3 witness: positive bias of 10 % (level 6), REFCN previously 0xC3. -/
theorem setBias_merges_reference_bits_witness :
    (1 ≤ 1 ∧ 6 ≤ 13 ∧ 0xC3 < 256) ∧
    (LMP91000_SetBias (idealHAL 0xC3) (some ⟨some 1, some 2, 4⟩) 1 6 ⟨(), []⟩).1 =
      LMP91000_OK ∧
    (LMP91000_SetBias (idealHAL 0xC3) (some ⟨some 1, some 2, 4⟩) 1 6 ⟨(), []⟩).2.trace =
      [] ++
      [Event.transmit (some 1) 0x90 [0x01, 0x00] 1000 HAL_OK,
       Event.transmit (some 1) 0x90 [0x11] 1000 HAL_OK,
       Event.receive (some 1) 0x90 1 1000 HAL_OK (some 0xC3),
       Event.transmit (some 1) 0x90 [0x11, (0xC3 &&& 0xE0) ||| (1 <<< 4) ||| 6] 1000 HAL_OK,
       Event.transmit (some 1) 0x90 [0x01, 0x01] 1000 HAL_OK] ∧
    ((0xC3 &&& 0xE0) ||| (1 <<< 4) ||| 6) &&& 0xE0 = 0xC3 &&& 0xE0 ∧
    ((0xC3 &&& 0xE0) ||| (1 <<< 4) ||| 6) &&& 0x1F = (1 <<< 4) ||| 6 :=
  ⟨by decide, setBias_merges_reference_bits (idealHAL 0xC3) ⟨some 1, some 2, 4⟩ 1 6 0xC3
    ⟨(), []⟩ (by decide) (by decide) (by decide) (fun _ _ _ _ _ => rfl)
    (fun _ _ _ _ _ => rfl)⟩

/-- C4: for each operating mode value (0, 1, 2, 3, 6, 7) and a non-null
handle, `LMP91000_SetMode` appends exactly one transaction to the trace, the
transmit of `[0x12, m]` to target 0x90 (so no lock-register write and no
read), and returns what that single `LMP91000_WriteRegister` returns:
`LMP91000_OK` when the transmit reports `HAL_OK`, `LMP91000_ERROR_I2C`
otherwise. -/
theorem setMode_single_write (hal : HAL σ) (h : LMP91000_Handle_t) (m : Nat) (w : World σ)
    (hm : m ∈ [0, 1, 2, 3, 6, 7]) :
    (LMP91000_SetMode hal (some h) m w).2.trace = w.trace ++
      [Event.transmit h.hi2c 0x90 [0x12, m] 1000
        (hal.transmit w.dev h.hi2c 0x90 [0x12, m] 1000).1] ∧
    (LMP91000_SetMode hal (some h) m w).1 =
      (LMP91000_WriteRegister hal (some h) 0x12 m w).1 ∧
    (LMP91000_SetMode hal (some h) m w).1 =
      (if (hal.transmit w.dev h.hi2c 0x90 [0x12, m] 1000).1 = HAL_OK
       then LMP91000_OK else LMP91000_ERROR_I2C) := by
  have hm2 : m % 256 = m := by
    simp only [List.mem_cons, List.mem_singleton, List.not_mem_nil, or_false] at hm
    rcases hm with rfl | rfl | rfl | rfl | rfl | rfl <;> rfl
  have hw := writeRegister_trace hal h 0x12 m w
  have hr := writeRegister_status hal h 0x12 m w
  simp only [hm2, Nat.reduceMod] at hw hr
  have he : LMP91000_SetMode hal (some h) m w = LMP91000_WriteRegister hal (some h) 0x12 m w := by
    simp only [LMP91000_SetMode, LMP91000_REG_MODECN, hm2]
  rw [he]
  exact ⟨hw, rfl, hr⟩

/-- C4 witness: mode 3 (3-lead amperometric) on a bus with no response left,
so the single transmit times out. -/
theorem setMode_single_write_witness :
    3 ∈ [0, 1, 2, 3, 6, 7] ∧
    (LMP91000_SetMode scriptedHAL (some ⟨some 1, some 2, 4⟩) 3 ⟨[], []⟩).2.trace = [] ++
      [Event.transmit (some 1) 0x90 [0x12, 3] 1000
        (scriptedHAL.transmit [] (some 1) 0x90 [0x12, 3] 1000).1] ∧
    (LMP91000_SetMode scriptedHAL (some ⟨some 1, some 2, 4⟩) 3 ⟨[], []⟩).1 =
      (LMP91000_WriteRegister scriptedHAL (some ⟨some 1, some 2, 4⟩) 0x12 3 ⟨[], []⟩).1 ∧
    (LMP91000_SetMode scriptedHAL (some ⟨some 1, some 2, 4⟩) 3 ⟨[], []⟩).1 =
      (if (scriptedHAL.transmit [] (some 1) 0x90 [0x12, 3] 1000).1 = HAL_OK
       then LMP91000_OK else LMP91000_ERROR_I2C) :=
  ⟨by decide, setMode_single_write scriptedHAL ⟨some 1, some 2, 4⟩ 3 ⟨[], []⟩ (by decide)⟩

/-- C5: with non-null handle and bus, when the two bus transactions of
`LMP91000_Init` succeed (the transmit of `[0x00]` that follows the power-up
sequence, and the receive after it, which stores the status byte `s`),
`LMP91000_Init` has issued exactly the power-up sequence followed by that
read of STATUS (0x00), and returns `LMP91000_ERROR_NOT_READY` when bit 0 of `s`
is clear and `LMP91000_OK` when it is set; it returns `LMP91000_OK` only if bit
0 of `s` is set. -/
theorem init_checks_ready_bit (hal : HAL σ) (hp : LMP91000_Handle_t) (i : Nat)
    (menb_port : Option Nat) (menb_pin s : Nat) (w : World σ) (d6 d7 : σ)
    (htx : hal.transmit
        (HAL_Delay hal 10 (HAL_GPIO_WritePin hal menb_port (menb_pin % 65536) GPIO_PIN_RESET
          (HAL_Delay hal 10 (HAL_GPIO_WritePin hal menb_port (menb_pin % 65536) GPIO_PIN_SET
            (HAL_GPIO_Init hal menb_port
              { Pin := menb_pin % 65536, Mode := GPIO_Mode.GPIO_MODE_OUTPUT_PP,
                Pull := GPIO_Pull.GPIO_NOPULL, Speed := GPIO_Speed.GPIO_SPEED_FREQ_LOW }
              w))))).dev
        (some i) 0x90 [0x00] 1000 = (HAL_OK, d6))
    (hrx : hal.receive d6 (some i) 0x90 1 1000 = ((HAL_OK, some s), d7)) :
    (LMP91000_Init hal (some hp) (some i) menb_port menb_pin w).2.trace = w.trace ++
      [Event.gpio_init menb_port
         { Pin := menb_pin % 65536, Mode := GPIO_Mode.GPIO_MODE_OUTPUT_PP,
           Pull := GPIO_Pull.GPIO_NOPULL, Speed := GPIO_Speed.GPIO_SPEED_FREQ_LOW },
       Event.gpio_write menb_port (menb_pin % 65536) GPIO_PIN_SET,
       Event.delay 10,
       Event.gpio_write menb_port (menb_pin % 65536) GPIO_PIN_RESET,
       Event.delay 10,
       Event.transmit (some i) 0x90 [0x00] 1000 HAL_OK,
       Event.receive (some i) 0x90 1 1000 HAL_OK (some s)] ∧
    (s &&& 1 = 0 →
      (LMP91000_Init hal (some hp) (some i) menb_port menb_pin w).1.1 =
        LMP91000_ERROR_NOT_READY) ∧
    (s &&& 1 = 1 →
      (LMP91000_Init hal (some hp) (some i) menb_port menb_pin w).1.1 = LMP91000_OK) ∧
    ((LMP91000_Init hal (some hp) (some i) menb_port menb_pin w).1.1 = LMP91000_OK →
      s &&& 1 = 1) := by
  have hbit : s % 256 &&& 1 = s &&& 1 := by
    rw [Nat.and_one_is_mod, Nat.and_one_is_mod]; omega
  simp only [HAL_Delay, HAL_GPIO_WritePin, HAL_GPIO_Init] at htx
  have hrun : LMP91000_Init hal (some hp) (some i) menb_port menb_pin w =
      ((if s &&& 1 ≠ 0 then LMP91000_OK else LMP91000_ERROR_NOT_READY,
        some { hi2c := some i, menb_port := menb_port, menb_pin := menb_pin % 65536 }),
       { dev := d7
         trace := w.trace ++
          [Event.gpio_init menb_port
             { Pin := menb_pin % 65536, Mode := GPIO_Mode.GPIO_MODE_OUTPUT_PP,
               Pull := GPIO_Pull.GPIO_NOPULL, Speed := GPIO_Speed.GPIO_SPEED_FREQ_LOW },
           Event.gpio_write menb_port (menb_pin % 65536) GPIO_PIN_SET,
           Event.delay 10,
           Event.gpio_write menb_port (menb_pin % 65536) GPIO_PIN_RESET,
           Event.delay 10,
           Event.transmit (some i) 0x90 [0x00] 1000 HAL_OK,
           Event.receive (some i) 0x90 1 1000 HAL_OK (some s)] }) := by
    simp [LMP91000_Init, LMP91000_ReadRegister, HAL_I2C_Master_Transmit,
      HAL_I2C_Master_Receive, HAL_Delay, HAL_GPIO_WritePin, HAL_GPIO_Init, i2c_addr_eq,
      LMP91000_I2C_TIMEOUT, LMP91000_REG_STATUS, htx, hrx, bufferAfter, hbit]
  rw [hrun]
  have h01 : s &&& 1 = 0 ∨ s &&& 1 = 1 := by
    rw [Nat.and_one_is_mod]; omega
  refine ⟨rfl, ?_, ?_, ?_⟩
  · intro h0; simp [h0]
  · intro h1; simp [h1]
  · rcases h01 with h0 | h1
    · simp [h0]
    · intro _; exact h1

/-- C5 witness: the simulated register file with STATUS = 0x01 and MODECN
selected beforehand; the read goes to STATUS and the result is `LMP91000_OK`. -/
theorem init_checks_ready_bit_witness :
    (regFileHAL.transmit
        (HAL_Delay regFileHAL 10 (HAL_GPIO_WritePin regFileHAL (some 2) (4 % 65536)
          GPIO_PIN_RESET
          (HAL_Delay regFileHAL 10 (HAL_GPIO_WritePin regFileHAL (some 2) (4 % 65536)
            GPIO_PIN_SET
            (HAL_GPIO_Init regFileHAL (some 2)
              { Pin := 4 % 65536, Mode := GPIO_Mode.GPIO_MODE_OUTPUT_PP,
                Pull := GPIO_Pull.GPIO_NOPULL, Speed := GPIO_Speed.GPIO_SPEED_FREQ_LOW }
              ⟨⟨fun a => if a = 0 then 1 else 0, 0x12⟩, []⟩))))).dev
        (some 1) 0x90 [0x00] 1000 = (HAL_OK, ⟨fun a => if a = 0 then 1 else 0, 0⟩) ∧
     regFileHAL.receive ⟨fun a => if a = 0 then 1 else 0, 0⟩ (some 1) 0x90 1 1000 =
       ((HAL_OK, some 1), ⟨fun a => if a = 0 then 1 else 0, 0⟩)) ∧
    ((LMP91000_Init regFileHAL (some ⟨none, none, 0⟩) (some 1) (some 2) 4
        ⟨⟨fun a => if a = 0 then 1 else 0, 0x12⟩, []⟩).2.trace = [] ++
      [Event.gpio_init (some 2)
         { Pin := 4 % 65536, Mode := GPIO_Mode.GPIO_MODE_OUTPUT_PP,
           Pull := GPIO_Pull.GPIO_NOPULL, Speed := GPIO_Speed.GPIO_SPEED_FREQ_LOW },
       Event.gpio_write (some 2) (4 % 65536) GPIO_PIN_SET,
       Event.delay 10,
       Event.gpio_write (some 2) (4 % 65536) GPIO_PIN_RESET,
       Event.delay 10,
       Event.transmit (some 1) 0x90 [0x00] 1000 HAL_OK,
       Event.receive (some 1) 0x90 1 1000 HAL_OK (some 1)] ∧
    (1 &&& 1 = 0 →
      (LMP91000_Init regFileHAL (some ⟨none, none, 0⟩) (some 1) (some 2) 4
        ⟨⟨fun a => if a = 0 then 1 else 0, 0x12⟩, []⟩).1.1 = LMP91000_ERROR_NOT_READY) ∧
    (1 &&& 1 = 1 →
      (LMP91000_Init regFileHAL (some ⟨none, none, 0⟩) (some 1) (some 2) 4
        ⟨⟨fun a => if a = 0 then 1 else 0, 0x12⟩, []⟩).1.1 = LMP91000_OK) ∧
    ((LMP91000_Init regFileHAL (some ⟨none, none, 0⟩) (some 1) (some 2) 4
        ⟨⟨fun a => if a = 0 then 1 else 0, 0x12⟩, []⟩).1.1 = LMP91000_OK → 1 &&& 1 = 1)) :=
  ⟨⟨rfl, rfl⟩,
   init_checks_ready_bit regFileHAL ⟨none, none, 0⟩ 1 (some 2) 4 1
     ⟨⟨fun a => if a = 0 then 1 else 0, 0x12⟩, []⟩
     ⟨fun a => if a = 0 then 1 else 0, 0⟩ ⟨fun a => if a = 0 then 1 else 0, 0⟩ rfl rfl⟩

/-- C7, the part the code does: a null handle or a null bus pointer makes
`LMP91000_Init` return `LMP91000_ERROR` with no HAL call and the world as it
was. -/
theorem init_rejects_null_handle_or_bus (hal : HAL σ) (hlmp : Option LMP91000_Handle_t)
    (hi2c : Option Nat) (menb_port : Option Nat) (menb_pin : Nat) (w : World σ)
    (hnull : hlmp = none ∨ hi2c = none) :
    (LMP91000_Init hal hlmp hi2c menb_port menb_pin w).1.1 = LMP91000_ERROR ∧
    (LMP91000_Init hal hlmp hi2c menb_port menb_pin w).2 = w := by
  rcases hnull with h | h
  · subst h; simp [LMP91000_Init]
  · subst h; cases hlmp <;> simp [LMP91000_Init]

/-- C7, where the code departs from it: with non-null handle and bus and a null
enable-pin port, `LMP91000_Init` does not return `LMP91000_ERROR`; it calls
`HAL_GPIO_Init`, `HAL_GPIO_WritePin` and `HAL_Delay` with the null port and
goes on to the bus. -/
theorem init_null_port_not_rejected (hal : HAL σ) (hp : LMP91000_Handle_t) (i : Nat)
    (menb_pin : Nat) (w : World σ) :
    (LMP91000_Init hal (some hp) (some i) none menb_pin w).1.1 ≠ LMP91000_ERROR ∧
    ∃ rest, (LMP91000_Init hal (some hp) (some i) none menb_pin w).2.trace = w.trace ++
      ([Event.gpio_init none
          { Pin := menb_pin % 65536, Mode := GPIO_Mode.GPIO_MODE_OUTPUT_PP,
            Pull := GPIO_Pull.GPIO_NOPULL, Speed := GPIO_Speed.GPIO_SPEED_FREQ_LOW },
        Event.gpio_write none (menb_pin % 65536) GPIO_PIN_SET,
        Event.delay 10,
        Event.gpio_write none (menb_pin % 65536) GPIO_PIN_RESET,
        Event.delay 10,
        Event.transmit (some i) 0x90 [0x00] 1000
          (hal.transmit (hal.delay (hal.gpio_write (hal.delay (hal.gpio_write
            (hal.gpio_init w.dev none
              { Pin := menb_pin % 65536, Mode := GPIO_Mode.GPIO_MODE_OUTPUT_PP,
                Pull := GPIO_Pull.GPIO_NOPULL, Speed := GPIO_Speed.GPIO_SPEED_FREQ_LOW })
            none (menb_pin % 65536) GPIO_PIN_SET) 10)
            none (menb_pin % 65536) GPIO_PIN_RESET) 10) (some i) 0x90 [0x00] 1000).1]
        ++ rest) := by
  simp only [LMP91000_Init, LMP91000_ReadRegister, HAL_I2C_Master_Transmit,
    HAL_I2C_Master_Receive, HAL_GPIO_Init, HAL_GPIO_WritePin, HAL_Delay, i2c_addr_eq,
    LMP91000_I2C_TIMEOUT, LMP91000_REG_STATUS]
  split_ifs <;> simp

/-- C6: `LMP91000_Init`, `LMP91000_ReadRegister`, `LMP91000_WriteRegister`,
`LMP91000_SetTIA`, `LMP91000_SetReference` and `LMP91000_SetBias`, called with
non-null arguments, abort at the first failed bus transaction.  On any bus:
whenever a transmit or receive they issued was reported failed, it is the
last entry they appended to the trace and the call returned
`LMP91000_ERROR_I2C`.  On the scripted bus, for every position the operation
can reach (first `oks.length` transactions succeed, the next reports
`st ≠ HAL_OK`): the operation returns `LMP91000_ERROR_I2C`, its trace is those
successful transactions followed by the failed one, and no later script
entry is consumed (no later transaction, so no register write and no lock
write after the failure). -/
theorem bus_failure_stops_sequence :
    (∀ (σ : Type) (hal : HAL σ) (h : LMP91000_Handle_t) (w : World σ),
      (∀ i menb_port menb_pin,
        StopsAtFailure w (LMP91000_Init hal (some h) (some i) menb_port menb_pin w).1.1
          (LMP91000_Init hal (some h) (some i) menb_port menb_pin w).2) ∧
      (∀ reg d,
        StopsAtFailure w (LMP91000_ReadRegister hal (some h) reg (some d) w).1.1
          (LMP91000_ReadRegister hal (some h) reg (some d) w).2) ∧
      (∀ reg data,
        StopsAtFailure w (LMP91000_WriteRegister hal (some h) reg data w).1
          (LMP91000_WriteRegister hal (some h) reg data w).2) ∧
      (∀ gain rload,
        StopsAtFailure w (LMP91000_SetTIA hal (some h) gain rload w).1
          (LMP91000_SetTIA hal (some h) gain rload w).2) ∧
      (∀ ref_source int_zero,
        StopsAtFailure w (LMP91000_SetReference hal (some h) ref_source int_zero w).1
          (LMP91000_SetReference hal (some h) ref_source int_zero w).2) ∧
      (∀ sign level,
        StopsAtFailure w (LMP91000_SetBias hal (some h) sign level w).1
          (LMP91000_SetBias hal (some h) sign level w).2)) ∧
    (∀ (h : LMP91000_Handle_t) (oks : List (HAL_StatusTypeDef × Option Nat))
        (st : HAL_StatusTypeDef) (b : Option Nat)
        (rest : List (HAL_StatusTypeDef × Option Nat)),
      (∀ x ∈ oks, x.1 = HAL_OK) → st ≠ HAL_OK →
      (oks.length < 2 → ∀ i menb_port menb_pin,
        AbortsAtFailure
          (fun w => ((LMP91000_Init scriptedHAL (some h) (some i) menb_port menb_pin w).1.1,
                     (LMP91000_Init scriptedHAL (some h) (some i) menb_port menb_pin w).2))
          oks st b rest) ∧
      (oks.length < 2 → ∀ reg d,
        AbortsAtFailure
          (fun w => ((LMP91000_ReadRegister scriptedHAL (some h) reg (some d) w).1.1,
                     (LMP91000_ReadRegister scriptedHAL (some h) reg (some d) w).2))
          oks st b rest) ∧
      (oks.length < 1 → ∀ reg data,
        AbortsAtFailure (fun w => LMP91000_WriteRegister scriptedHAL (some h) reg data w)
          oks st b rest) ∧
      (oks.length < 3 → ∀ gain rload,
        AbortsAtFailure (fun w => LMP91000_SetTIA scriptedHAL (some h) gain rload w)
          oks st b rest) ∧
      (oks.length < 5 → ∀ ref_source int_zero,
        AbortsAtFailure
          (fun w => LMP91000_SetReference scriptedHAL (some h) ref_source int_zero w)
          oks st b rest) ∧
      (oks.length < 5 → ∀ sign level,
        AbortsAtFailure (fun w => LMP91000_SetBias scriptedHAL (some h) sign level w)
          oks st b rest)) := by
  refine ⟨?_, ?_⟩
  · intro σ hal h w
    refine ⟨fun i p n => init_stops hal h i p n w,
      fun reg d => readRegister_stops hal h reg d w,
      fun reg data => writeRegister_stops hal h reg data w,
      fun g l => setTIA_stops hal h g l w, ?_, ?_⟩
    · intro s z
      rw [setReference_eq]
      exact lockedReadModifyWrite_stops hal h _ w
    · intro s l
      rw [setBias_eq]
      exact lockedReadModifyWrite_stops hal h _ w
  · intro h oks st b rest hoks hst
    refine ⟨fun hlen i p n => init_aborts h i p n oks st b rest hoks hst hlen,
      fun hlen reg d => readRegister_aborts h reg d oks st b rest hoks hst hlen,
      fun hlen reg data => writeRegister_aborts h reg data oks st b rest hst hlen,
      fun hlen g l => setTIA_aborts h g l oks st b rest hoks hst hlen, ?_, ?_⟩
    · intro hlen s z
      simp only [setReference_eq]
      exact lockedReadModifyWrite_aborts h _ oks st b rest hoks hst hlen
    · intro hlen s l
      simp only [setBias_eq]
      exact lockedReadModifyWrite_aborts h _ oks st b rest hoks hst hlen

/-- C6 witness: `LMP91000_SetReference` on the scripted bus whose first three
transactions succeed (the read-back stores 0x5B) and whose fourth, the REFCN
write, reports `HAL_ERROR`, with one more entry left in the script: the result
is `LMP91000_ERROR_I2C`, the entry left is not consumed, and the trace is three
successful transactions followed by the failed one. -/
theorem bus_failure_stops_sequence_witness :
    ((∀ x ∈ [(HAL_OK, (none : Option Nat)), (HAL_OK, none), (HAL_OK, some 0x5B)],
        x.1 = HAL_OK) ∧
      HAL_ERROR ≠ HAL_OK ∧
      [(HAL_OK, (none : Option Nat)), (HAL_OK, none), (HAL_OK, some 0x5B)].length < 5) ∧
    ((LMP91000_SetReference scriptedHAL (some ⟨some 1, some 2, 4⟩) 1 2
        ⟨[(HAL_OK, none), (HAL_OK, none), (HAL_OK, some 0x5B)] ++
          (HAL_ERROR, none) :: [(HAL_OK, none)], []⟩).1 = LMP91000_ERROR_I2C ∧
     (LMP91000_SetReference scriptedHAL (some ⟨some 1, some 2, 4⟩) 1 2
        ⟨[(HAL_OK, none), (HAL_OK, none), (HAL_OK, some 0x5B)] ++
          (HAL_ERROR, none) :: [(HAL_OK, none)], []⟩).2.dev = [(HAL_OK, none)] ∧
     ∃ l, (LMP91000_SetReference scriptedHAL (some ⟨some 1, some 2, 4⟩) 1 2
        ⟨[(HAL_OK, none), (HAL_OK, none), (HAL_OK, some 0x5B)] ++
          (HAL_ERROR, none) :: [(HAL_OK, none)], []⟩).2.trace = [] ++ l ∧
      (l.dropLast.filter Event.isBus).length =
        [(HAL_OK, (none : Option Nat)), (HAL_OK, none), (HAL_OK, some 0x5B)].length ∧
      (∀ x ∈ l.dropLast, x.failed = false) ∧
      l.getLast?.bind Event.status = some HAL_ERROR) :=
  ⟨⟨by decide, by decide, by decide⟩,
   (bus_failure_stops_sequence.2 ⟨some 1, some 2, 4⟩
      [(HAL_OK, none), (HAL_OK, none), (HAL_OK, some 0x5B)] HAL_ERROR none [(HAL_OK, none)]
      (by decide) (by decide)).2.2.2.2.1 (by decide) 1 2 []⟩

/-- C10 as stated fails: in the successful `LMP91000_SetReference` call with
REFCN previously 0x5B, the transaction immediately before the REFCN write is
the receive of the read-back, not the unlock write. -/
theorem setReference_write_not_next_to_unlock :
    (LMP91000_SetReference (idealHAL 0x5B) (some ⟨some 1, some 2, 4⟩) 1 2 ⟨(), []⟩).1 =
      LMP91000_OK ∧
    ¬ ImmediatelyBracketed
      (LMP91000_SetReference (idealHAL 0x5B) (some ⟨some 1, some 2, 4⟩) 1 2 ⟨(), []⟩).2.trace := by
  refine ⟨by decide, ?_⟩
  intro hB
  have htr : (LMP91000_SetReference (idealHAL 0x5B) (some ⟨some 1, some 2, 4⟩) 1 2
      ⟨(), []⟩).2.trace =
      [Event.transmit (some 1) 0x90 [0x01, 0x00] 1000 HAL_OK,
       Event.transmit (some 1) 0x90 [0x11] 1000 HAL_OK,
       Event.receive (some 1) 0x90 1 1000 HAL_OK (some 0x5B)] ++
      Event.transmit (some 1) 0x90 [0x11, 0xDB] 1000 HAL_OK ::
      [Event.transmit (some 1) 0x90 [0x01, 0x01] 1000 HAL_OK] := by decide
  obtain ⟨⟨p, u, hp, hu⟩, _⟩ := hB _ _ _ htr (by decide)
  have hlast := congrArg List.getLast? hp
  simp at hlast
  subst hlast
  simp [Event.isWrite] at hu

/-- C10, amended: in the transactions issued by a successful call, the TIACN
write of `LMP91000_SetTIA` has the unlock write `[0x01, 0x00]` immediately
before it and the lock write `[0x01, 0x01]` immediately after it; the REFCN
write of `LMP91000_SetReference` and of `LMP91000_SetBias` has the lock write
immediately after it and the unlock write before it, separated from it only
by the transactions of the REFCN read-back. -/
theorem locked_setters_bracket_writes (hal : HAL σ) (h : LMP91000_Handle_t) (w : World σ) :
    (∀ gain rload, (LMP91000_SetTIA hal (some h) gain rload w).1 = LMP91000_OK →
      ∃ l, (LMP91000_SetTIA hal (some h) gain rload w).2.trace = w.trace ++ l ∧
        (∃ e ∈ l, e.isProtectedWrite = true) ∧ ImmediatelyBracketed l) ∧
    (∀ ref_source int_zero,
      (LMP91000_SetReference hal (some h) ref_source int_zero w).1 = LMP91000_OK →
      ∃ l, (LMP91000_SetReference hal (some h) ref_source int_zero w).2.trace = w.trace ++ l ∧
        (∃ e ∈ l, e.isProtectedWrite = true) ∧ Bracketed l) ∧
    (∀ sign level, (LMP91000_SetBias hal (some h) sign level w).1 = LMP91000_OK →
      ∃ l, (LMP91000_SetBias hal (some h) sign level w).2.trace = w.trace ++ l ∧
        (∃ e ∈ l, e.isProtectedWrite = true) ∧ Bracketed l) := by
  refine ⟨?_, ?_, ?_⟩
  · intro gain rload hok
    obtain ⟨l, htr, hc⟩ := setTIA_cases hal h gain rload w
      (LMP91000_SetTIA hal (some h) gain rload w).1
      (LMP91000_SetTIA hal (some h) gain rload w).2 rfl
    rw [hok] at hc
    rcases hc with ⟨st, _, hr, _⟩ | ⟨st, _, hr, _⟩ | ⟨st, _, hr, _⟩ | ⟨_, rfl⟩
    · exact absurd hr (by decide)
    · exact absurd hr (by decide)
    · exact absurd hr (by decide)
    · refine ⟨_, htr, ⟨Event.transmit h.hi2c 0x90 [0x10, ((gain <<< 2) ||| rload) % 256]
        1000 HAL_OK, by simp,
        by simp [Event.isProtectedWrite, Event.isWriteTo, LMP91000_REG_TIACN]⟩,
        immediatelyBracketed_tia _ _⟩
  · intro s z hok
    rw [setReference_eq] at hok ⊢
    exact lockedReadModifyWrite_bracketed hal h _ w hok
  · intro s l hok
    rw [setBias_eq] at hok ⊢
    exact lockedReadModifyWrite_bracketed hal h _ w hok

/-- C10 witness: the successful `LMP91000_SetReference` call with REFCN
previously 0x5B on the always-succeeding bus. -/
theorem locked_setters_bracket_writes_witness :
    (LMP91000_SetReference (idealHAL 0x5B) (some ⟨some 1, some 2, 4⟩) 1 2 ⟨(), []⟩).1 =
      LMP91000_OK ∧
    ∃ l, (LMP91000_SetReference (idealHAL 0x5B) (some ⟨some 1, some 2, 4⟩) 1 2
        ⟨(), []⟩).2.trace = [] ++ l ∧
      (∃ e ∈ l, e.isProtectedWrite = true) ∧ Bracketed l :=
  ⟨by decide,
   (locked_setters_bracket_writes (idealHAL 0x5B) ⟨some 1, some 2, 4⟩ ⟨(), []⟩).2.1 1 2
     (by decide)⟩

/-- C8: against the simulated register file, for each of the registers TIACN
(0x10), REFCN (0x11), MODECN (0x12) and every byte `v`,
`LMP91000_WriteRegister(addr, v)` followed by `LMP91000_ReadRegister(addr)`
returns `LMP91000_OK` from both calls and leaves `v` in the output byte. -/
theorem write_then_read_roundtrip (h : LMP91000_Handle_t) (addr v d : Nat)
    (w : World RegFile) (ha : addr ∈ [0x10, 0x11, 0x12]) (hv : v < 256) :
    (LMP91000_WriteRegister regFileHAL (some h) addr v w).1 = LMP91000_OK ∧
    (LMP91000_ReadRegister regFileHAL (some h) addr (some d)
      (LMP91000_WriteRegister regFileHAL (some h) addr v w).2).1 =
        (LMP91000_OK, some v) := by
  have hv2 : v % 256 = v := Nat.mod_eq_of_lt hv
  simp only [List.mem_cons, List.mem_singleton, List.not_mem_nil, or_false] at ha
  rcases ha with rfl | rfl | rfl <;>
    simp [LMP91000_WriteRegister, LMP91000_ReadRegister, HAL_I2C_Master_Transmit,
      HAL_I2C_Master_Receive, regFileHAL, RegFile.store, i2c_addr_eq, hv2, bufferAfter]

/-- C8 witness: REFCN, byte 0xA7, on a register file that is all zero. -/
theorem write_then_read_roundtrip_witness :
    (0x11 ∈ [0x10, 0x11, 0x12] ∧ 0xA7 < 256) ∧
    (LMP91000_WriteRegister regFileHAL (some ⟨some 1, some 2, 4⟩) 0x11 0xA7
      ⟨⟨fun _ => 0, 0⟩, []⟩).1 = LMP91000_OK ∧
    (LMP91000_ReadRegister regFileHAL (some ⟨some 1, some 2, 4⟩) 0x11 (some 0)
      (LMP91000_WriteRegister regFileHAL (some ⟨some 1, some 2, 4⟩) 0x11 0xA7
        ⟨⟨fun _ => 0, 0⟩, []⟩).2).1 = (LMP91000_OK, some 0xA7) :=
  ⟨by decide, write_then_read_roundtrip ⟨some 1, some 2, 4⟩ 0x11 0xA7 0
    ⟨⟨fun _ => 0, 0⟩, []⟩ (by decide) (by decide)⟩

/-- C9: against the simulated register file, whose REFCN holds a byte, for
source in {0,1}, zero in 0..3, sign in {0,1} and level in 0..13,
`LMP91000_SetReference` then `LMP91000_SetBias` leaves the same register file
as `LMP91000_SetBias` then `LMP91000_SetReference`: all four calls return
`LMP91000_OK`, REFCN = (source << 7) | (zero << 5) | (sign << 4) | level and
LOCK = 0x01. -/
theorem setReference_setBias_any_order (h : LMP91000_Handle_t)
    (ref_source int_zero sign level : Nat) (w : World RegFile)
    (hR : w.dev.regs 0x11 < 256) (hs : ref_source ≤ 1) (hz : int_zero ≤ 3)
    (hg : sign ≤ 1) (hl : level ≤ 13) :
    (LMP91000_SetReference regFileHAL (some h) ref_source int_zero w).1 = LMP91000_OK ∧
    (LMP91000_SetBias regFileHAL (some h) sign level
      (LMP91000_SetReference regFileHAL (some h) ref_source int_zero w).2).1 = LMP91000_OK ∧
    (LMP91000_SetBias regFileHAL (some h) sign level w).1 = LMP91000_OK ∧
    (LMP91000_SetReference regFileHAL (some h) ref_source int_zero
      (LMP91000_SetBias regFileHAL (some h) sign level w).2).1 = LMP91000_OK ∧
    (LMP91000_SetBias regFileHAL (some h) sign level
      (LMP91000_SetReference regFileHAL (some h) ref_source int_zero w).2).2.dev =
    (LMP91000_SetReference regFileHAL (some h) ref_source int_zero
      (LMP91000_SetBias regFileHAL (some h) sign level w).2).2.dev ∧
    (LMP91000_SetBias regFileHAL (some h) sign level
      (LMP91000_SetReference regFileHAL (some h) ref_source int_zero w).2).2.dev.regs 0x11 =
      (ref_source <<< 7) ||| (int_zero <<< 5) ||| (sign <<< 4) ||| level ∧
    (LMP91000_SetBias regFileHAL (some h) sign level
      (LMP91000_SetReference regFileHAL (some h) ref_source int_zero w).2).2.dev.regs 0x01 =
      0x01 := by
  have hR2 : w.dev.regs 0x11 % 256 = w.dev.regs 0x11 := Nat.mod_eq_of_lt hR
  have hA := refcn_ref_bits _ hR ref_source (by omega) int_zero (by omega)
  have hB := refcn_bias_bits _ hR sign (by omega) level (by omega)
  have hC := refcn_both_orders ref_source (by omega) int_zero (by omega) sign (by omega)
    level (by omega)
  simp only [setReference_eq, setBias_eq]
  refine ⟨(lockedReadModifyWrite_regFile h _ w).1, (lockedReadModifyWrite_regFile h _ _).1,
    (lockedReadModifyWrite_regFile h _ w).1, (lockedReadModifyWrite_regFile h _ _).1, ?_, ?_, ?_⟩
  · simp only [fun m v => (lockedReadModifyWrite_regFile h m v).2]
    simp only [Nat.reduceEqDiff, OfNat.ofNat_ne_one, if_true, if_false, hR2, hA.1, hA.2.2,
      hB.1, hB.2.2, hC.1, hC.2, Nat.mod_mod]
    congr 1
    funext a
    by_cases h1 : a = 1
    · simp [h1]
    · by_cases h2 : a = 17
      · simp [h2]
      · simp [h1, h2]
  · simp only [fun m v => (lockedReadModifyWrite_regFile h m v).2]
    simp only [Nat.reduceEqDiff, OfNat.ofNat_ne_one, if_true, if_false, hR2, hA.1, hA.2.2,
      hC.1, Nat.mod_mod]
  · simp only [fun m v => (lockedReadModifyWrite_regFile h m v).2]
    simp

/-- C9 witness: REFCN previously 0x5B, external reference with 67 % zero, and
positive bias of 10 % (level 6), on a register file that is zero elsewhere. -/
theorem setReference_setBias_any_order_witness :
    ((⟨⟨fun a => if a = 0x11 then 0x5B else 0, 0⟩, []⟩ : World RegFile).dev.regs 0x11 < 256 ∧
      1 ≤ 1 ∧ 2 ≤ 3 ∧ 1 ≤ 1 ∧ 6 ≤ 13) ∧
    ((LMP91000_SetReference regFileHAL (some ⟨some 1, some 2, 4⟩) 1 2
      ⟨⟨fun a => if a = 0x11 then 0x5B else 0, 0⟩, []⟩).1 = LMP91000_OK ∧
    (LMP91000_SetBias regFileHAL (some ⟨some 1, some 2, 4⟩) 1 6
      (LMP91000_SetReference regFileHAL (some ⟨some 1, some 2, 4⟩) 1 2
        ⟨⟨fun a => if a = 0x11 then 0x5B else 0, 0⟩, []⟩).2).1 = LMP91000_OK ∧
    (LMP91000_SetBias regFileHAL (some ⟨some 1, some 2, 4⟩) 1 6
      ⟨⟨fun a => if a = 0x11 then 0x5B else 0, 0⟩, []⟩).1 = LMP91000_OK ∧
    (LMP91000_SetReference regFileHAL (some ⟨some 1, some 2, 4⟩) 1 2
      (LMP91000_SetBias regFileHAL (some ⟨some 1, some 2, 4⟩) 1 6
        ⟨⟨fun a => if a = 0x11 then 0x5B else 0, 0⟩, []⟩).2).1 = LMP91000_OK ∧
    (LMP91000_SetBias regFileHAL (some ⟨some 1, some 2, 4⟩) 1 6
      (LMP91000_SetReference regFileHAL (some ⟨some 1, some 2, 4⟩) 1 2
        ⟨⟨fun a => if a = 0x11 then 0x5B else 0, 0⟩, []⟩).2).2.dev =
    (LMP91000_SetReference regFileHAL (some ⟨some 1, some 2, 4⟩) 1 2
      (LMP91000_SetBias regFileHAL (some ⟨some 1, some 2, 4⟩) 1 6
        ⟨⟨fun a => if a = 0x11 then 0x5B else 0, 0⟩, []⟩).2).2.dev ∧
    (LMP91000_SetBias regFileHAL (some ⟨some 1, some 2, 4⟩) 1 6
      (LMP91000_SetReference regFileHAL (some ⟨some 1, some 2, 4⟩) 1 2
        ⟨⟨fun a => if a = 0x11 then 0x5B else 0, 0⟩, []⟩).2).2.dev.regs 0x11 =
      (1 <<< 7) ||| (2 <<< 5) ||| (1 <<< 4) ||| 6 ∧
    (LMP91000_SetBias regFileHAL (some ⟨some 1, some 2, 4⟩) 1 6
      (LMP91000_SetReference regFileHAL (some ⟨some 1, some 2, 4⟩) 1 2
        ⟨⟨fun a => if a = 0x11 then 0x5B else 0, 0⟩, []⟩).2).2.dev.regs 0x01 = 0x01) :=
  ⟨by decide, setReference_setBias_any_order ⟨some 1, some 2, 4⟩ 1 2 1 6
    ⟨⟨fun a => if a = 0x11 then 0x5B else 0, 0⟩, []⟩
    (by decide) (by decide) (by decide) (by decide) (by decide)⟩

end Claims

end LMP91000
